import Mathlib

/-!
Verification of the screenshot-to-solution overlay application.

The development shallowly embeds the electron main-process logic:

* `parseSolution` and its regex helpers embed the markdown parsing of
  `ProcessingHelper.parseSolution`.  JavaScript strings are embedded as
  `List Char`; each JS regex used by the source is implemented as an
  explicit scanner with the exact leftmost-match / lazy / greedy and
  case-insensitivity semantics of the original pattern.
* The processing pipeline (`processScreenshots` and its three helpers) is
  embedded as a pure state-transition function.  Remote API calls, the
  file system and the renderer are modelled by an environment record
  (`Env`) supplying the outcome of each call; every observable action
  (renderer event, state mutation, controller lifecycle) is recorded in
  an event trace (`Ev`).
* The window-visibility machine of `main.ts` and the `toggle-window` IPC
  handler are embedded over an explicit window state (`MState`).
* The JSON config store of `main.ts` is embedded over the parsed config
  object (an association list); JSON serialisation is assumed faithful
  for JSON-serialisable values.
-/

set_option maxHeartbeats 1000000

namespace Gurt

/-- JavaScript strings are embedded as lists of characters. -/
abbrev Str := List Char

/-- ASCII lower-casing, as performed by `String.prototype.toLowerCase` and by
the canonicalisation of the `i` regex flag on the characters occurring here. -/
def lowerChar (c : Char) : Char :=
  if 'A' ≤ c ∧ c ≤ 'Z' then Char.ofNat (c.toNat + 32) else c

/-- Membership in the JS regex class `\s` (whitespace).  The source only ever
meets the ASCII members plus NBSP; the remaining Unicode space characters are
omitted from the model. -/
def isWsChar (c : Char) : Bool :=
  c = ' ' || c = '\t' || c = '\n' || c = '\r' ||
  c = Char.ofNat 11 || c = Char.ofNat 12 || c = Char.ofNat 160

/-- Membership in the JS regex class `\w` (word character). -/
def isWordChar (c : Char) : Bool :=
  ('a' ≤ c && c ≤ 'z') || ('A' ≤ c && c ≤ 'Z') || ('0' ≤ c && c ≤ '9') || c = '_'

/-- Line terminators, which the JS regex atom `.` does not match. -/
def isNlChar (c : Char) : Bool :=
  c = '\n' || c = '\r' || c = Char.ofNat 0x2028 || c = Char.ofNat 0x2029

/-- Case-insensitive literal-pattern test at the head of a string. -/
def ciStarts : Str → Str → Bool
  | [], _ => true
  | _ :: _, [] => false
  | p :: ps, c :: cs => (lowerChar p = lowerChar c) && ciStarts ps cs

/-- Case-sensitive literal-pattern test at the head of a string
(`String.prototype.startsWith`). -/
def litStarts : Str → Str → Bool
  | [], _ => true
  | _ :: _, [] => false
  | p :: ps, c :: cs => (p = c) && litStarts ps cs

/-- Index of the first (case-sensitive) occurrence of a literal pattern
(`String.prototype.indexOf`, with `none` for `-1`). -/
def findLitIdx (pat : Str) : Str → Option Nat
  | [] => if litStarts pat [] then some 0 else none
  | s@(_ :: cs) =>
    if litStarts pat s then some 0 else (findLitIdx pat cs).map (· + 1)

/-- Suffix of the haystack starting at the first case-insensitive occurrence
of the literal pattern. -/
def findCISuffix (pat : Str) : Str → Option Str
  | [] => if ciStarts pat [] then some [] else none
  | s@(_ :: cs) => if ciStarts pat s then some s else findCISuffix pat cs

/-- Substring test (`String.prototype.includes`). -/
def containsLit (hay needle : Str) : Bool :=
  (findLitIdx needle hay).isSome

/-- Lower-casing a string (`String.prototype.toLowerCase`, ASCII part). -/
def toLowerStr (s : Str) : Str := s.map lowerChar

/-- Whitespace trimming (`String.prototype.trim`; the source's inputs only
contain the whitespace characters of `isWsChar`). -/
def trimStr (s : Str) : Str :=
  ((s.dropWhile isWsChar).reverse.dropWhile isWsChar).reverse

/-- The string `\x60\x60\x60` (a markdown code fence). -/
def fenceS : Str := [Char.ofNat 96, Char.ofNat 96, Char.ofNat 96]

/-- Attempt of the heading pattern `##\s*<word>\b` at the head of the string:
on success, returns the remainder after the word boundary.  `\s*` is greedy
and the word contains no whitespace, so the whitespace run is consumed
deterministically. -/
def headingTail (word : Str) (s : Str) : Option Str :=
  match s with
  | '#' :: '#' :: rest =>
    let r := rest.dropWhile isWsChar
    if ciStarts word r then
      let r2 := r.drop word.length
      match r2 with
      | [] => some []
      | c :: _ => if isWordChar c then none else some r2
    else none
  | _ => none

/-- Remainder after the leftmost occurrence of `##\s*<word>\b` (case
insensitive), the heading part shared by the three section regexes of
`parseSolution`. -/
def findHeading (word : Str) : Str → Option Str
  | [] => none
  | s@(_ :: cs) =>
    match headingTail word s with
    | some r => some r
    | none => findHeading word cs

/-- Does the section-terminator pattern `##\s*\w+` match at the head? -/
def nextHeadingHere (s : Str) : Bool :=
  match s with
  | '#' :: '#' :: rest =>
    match rest.dropWhile isWsChar with
    | [] => false
    | c :: _ => isWordChar c
  | _ => false

/-- The lazy capture `([\s\S]*?)(?:##\s*\w+|$)`: all characters up to the
first position where `##\s*\w+` matches, or the whole string if none. -/
def captureBody : Str → Str
  | [] => []
  | s@(c :: cs) => if nextHeadingHere s then [] else c :: captureBody cs

/-- The fenced-code part of the Solution regex and of the fallback regex
`\x60\x60\x60.*?\n([\s\S]*?)\x60\x60\x60`.  Fence candidates are tried left to
right (the laziness of the preceding `[\s\S]*?`); a candidate succeeds when a
literal `\n` follows the (line-terminator-free) info string and a closing
fence exists, and the capture runs to the first closing fence. -/
def fenceCapture : Str → Option Str
  | [] => none
  | s@(_ :: cs) =>
    if litStarts fenceS s then
      let after := s.drop 3
      let info := after.takeWhile (fun c => !(isNlChar c))
      match after.drop info.length with
      | '\n' :: body =>
        match findLitIdx fenceS body with
        | some i => some (body.take i)
        | none => fenceCapture cs
      | _ => fenceCapture cs
    else fenceCapture cs

/-- Raw capture of `##\s*Approach\b([\s\S]*?)(?:##\s*\w+|$)` (flag `i`). -/
def approachRaw (s : Str) : Option Str :=
  (findHeading ("approach".toList) s).map captureBody

/-- Raw capture of
`##\s*Solution\b[\s\S]*?\x60\x60\x60.*?\n([\s\S]*?)\x60\x60\x60` (flag `i`).
The overall match starts at the first `## Solution` heading: a fenced block
after a later heading is also after the first one, so the regex succeeds at
the first heading whenever it succeeds at all. -/
def solutionRaw (s : Str) : Option Str :=
  (findHeading ("solution".toList) s).bind fenceCapture

/-- Raw capture of `##\s*Complexity\b([\s\S]*?)(?:##\s*\w+|$)` (flag `i`). -/
def complexityRaw (s : Str) : Option Str :=
  (findHeading ("complexity".toList) s).map captureBody

/-- The `\s*(.*)` tail of the complexity-line regexes: greedy `\s*` consumes
all whitespace (newlines included), then `(.*)` takes the rest of that line. -/
def lineCap (u : Str) : Str :=
  (u.dropWhile isWsChar).takeWhile (fun c => !(isNlChar c))

/-- Capture of `<label>\s*(.*)` (flag `i`) with a truthiness test: the first
case-insensitive occurrence of the label, then the line capture after it.  An
empty capture is falsy in the source, hence `none`. -/
def lineAfterCI (lbl : Str) (s : Str) : Option Str :=
  match findCISuffix lbl s with
  | none => none
  | some rest =>
    if (lineCap (rest.drop lbl.length)).isEmpty then none
    else some (lineCap (rest.drop lbl.length))

/-- The suffix pattern `\([^)]+\)` matched right after a big-O letter at the
head of `t` (`t` starts right after the opening parenthesis... here `t` is the
text after the `(`): `[^)]+` is greedy but cannot cross `)`, so it runs to the
first `)`.  Returns the number of characters consumed including the `)`. -/
def closyLen (t : Str) : Option Nat :=
  let run := t.takeWhile (fun c => c ≠ ')')
  if run.isEmpty then none
  else
    match t.drop run.length with
    | ')' :: _ => some (run.length + 1)
    | _ => none

/-- Big-O letters of the class `[OΘΩ]` under flag `i`. -/
def bigOChar (c : Char) : Bool :=
  c = 'O' || c = 'o' || c = Char.ofNat 0x398 || c = Char.ofNat 0x3B8 ||
  c = Char.ofNat 0x3A9 || c = Char.ofNat 0x3C9

/-- Letters matched by `O` under flag `i`. -/
def oChr (c : Char) : Bool := c = 'O' || c = 'o'

/-- Does `O\([^)]+\)` (flag `i`) match at offset `j` of `s`? -/
def oParenOkAt (s : Str) (j : Nat) : Bool :=
  match s.drop j with
  | c :: '(' :: t => oChr c && (closyLen t).isSome
  | _ => false

/-- Attempt of `.*O\([^)]+\).*` (flag `i`) anchored at the head of `s`: the
greedy leading `.*` stays on the first line and prefers the rightmost `O(`
with a valid closure (`getLast?` of the ascending candidate list); the
trailing `.*` extends to the end of the line containing the `)`.  Returns the
whole match. -/
def matchAtHead (s : Str) : Option Str :=
  match ((List.range (s.takeWhile (fun c => !(isNlChar c))).length).filter
      (oParenOkAt s)).getLast? with
  | none => none
  | some j =>
    match s.drop j with
    | _ :: '(' :: t =>
      match closyLen t with
      | some n =>
        some (s.take (j + 2 + n +
          ((s.drop (j + 2 + n)).takeWhile (fun c => !(isNlChar c))).length))
      | none => none
    | _ => none

/-- Leftmost match of `.*O\([^)]+\).*` (flag `i`): match attempts proceed
character by character, so the match starts at the first line containing a
valid `O(...)`. -/
def genericO : Str → Option Str
  | [] => none
  | s@(_ :: cs) =>
    match matchAtHead s with
    | some m => some m
    | none => genericO cs

/-- The lazy `.*?[OΘΩ]\([^)]+\)` part of the legacy complexity regex: scan
within the current line for the first big-O letter followed by `(` and a valid
closure; returns the number of characters consumed. -/
def lazyOscan : Str → Option Nat
  | [] => none
  | c :: cs =>
    if isNlChar c then none
    else
      match cs with
      | '(' :: t =>
        if bigOChar c then
          match closyLen t with
          | some n => some (2 + n)
          | none => (lazyOscan cs).map (· + 1)
        else (lazyOscan cs).map (· + 1)
      | _ => (lazyOscan cs).map (· + 1)

/-- The part of the legacy complexity regex after the `<type>` word, given the
remainder `r`: greedy `\s*` (deterministic, since `complexity` starts with a
letter), then `complexity`, then the lazy big-O scan.  Returns the matched
length within `r`. -/
def oldAtTail (r : Str) : Option Nat :=
  if ciStarts ("complexity".toList) (r.drop (r.takeWhile isWsChar).length) then
    (lazyOscan ((r.drop (r.takeWhile isWsChar).length).drop 10)).map
      (fun n => (r.takeWhile isWsChar).length + 10 + n)
  else none

/-- Attempt of `<type>\s*complexity.*?[OΘΩ]\([^)]+\)` (flag `i`) at the head;
`.*?` stays within the line.  Returns the length of the whole match. -/
def oldAt (w : Str) (s : Str) : Option Nat :=
  if ciStarts w s then
    (oldAtTail (s.drop w.length)).map (fun n => w.length + n)
  else none

/-- Leftmost match of the legacy complexity regex, returning `match[0]`. -/
def oldScan (w : Str) : Str → Option Str
  | [] => none
  | s@(_ :: cs) =>
    match oldAt w s with
    | some n => some (s.take n)
    | none => oldScan w cs

/-- The record produced by `parseSolution`
(`{ code, thoughts, time_complexity, space_complexity }`). -/
structure SolutionRec where
  code : Str
  thoughts : List Str
  time_complexity : Str
  space_complexity : Str
deriving DecidableEq, Repr

def msgNoSolution : Str := "No solution generated.".toList
def msgEmptyResp : Str := "Error: Empty response from API.".toList
def msgNA : Str := "N/A".toList
def msgNoCode : Str := "Code not found.".toList
def msgNoApproach : Str := "Approach not specified.".toList
def msgTimeUnspec : Str := "Time complexity not specified".toList
def msgSpaceUnspec : Str := "Space complexity not specified".toList
def msgExtracted : Str := "(extracted from Complexity section)".toList

/-- The `timeComplexity` value extracted from the Complexity section body. -/
def complexityTimeRaw (cx : Str) : Str :=
  match lineAfterCI ("time complexity:".toList) cx with
  | some v => trimStr v
  | none => msgTimeUnspec

/-- The `spaceComplexity` value extracted from the Complexity section body. -/
def complexitySpaceRaw (cx : Str) : Str :=
  match lineAfterCI ("space complexity:".toList) cx with
  | some v => trimStr v
  | none => msgSpaceUnspec

/-- The generic big-O fallback applied when neither specific line was found
inside the Complexity section. -/
def complexityPick (cx t sp : Str) : Str × Str :=
  if t = msgTimeUnspec && sp = msgSpaceUnspec then
    match genericO cx with
    | some m => (m, msgExtracted)
    | none => (t, sp)
  else (t, sp)

/-- Time/space extraction inside a present `## Complexity` section body
(already trimmed), including the generic big-O fallback used when neither
specific line is found. -/
def complexityPair (cx : Str) : Str × Str :=
  complexityPick cx (complexityTimeRaw cx) (complexitySpaceRaw cx)

/-- The `extractOldComplexity` closure of the source. -/
def oldComplexityOf (w : Str) (dflt : Str) (s : Str) : Str :=
  match oldScan w s with
  | some m => m
  | none => dflt

/-- Whole-text complexity fallback used when there is no `## Complexity`
section (or its capture is empty, hence falsy). -/
def oldPair (s : Str) : Str × Str :=
  (oldComplexityOf ("time".toList) msgTimeUnspec s,
   oldComplexityOf ("space".toList) msgSpaceUnspec s)

/-- Code extraction fallback: first fenced block anywhere in the text. -/
def codeFallback (s : Str) : Str :=
  match fenceCapture s with
  | some cap => if cap.isEmpty then msgNoCode else trimStr cap
  | none => msgNoCode

/-- The `approach` local of `parseSolution`: the Approach capture when truthy,
else the placeholder. -/
def approachOf (s : Str) : Str :=
  match approachRaw s with
  | some cap => if cap.isEmpty then msgNoApproach else trimStr cap
  | none => msgNoApproach

/-- The `code` local of `parseSolution`: the Solution-section capture when
truthy, else the first fenced block anywhere, else the placeholder. -/
def codeOf (s : Str) : Str :=
  match solutionRaw s with
  | some cap => if cap.isEmpty then codeFallback s else trimStr cap
  | none => codeFallback s

/-- The time/space pair of `parseSolution`: the Complexity-section extraction
when the capture is truthy, else the whole-text legacy fallback. -/
def complexityOf (s : Str) : Str × Str :=
  match complexityRaw s with
  | some cap => if cap.isEmpty then oldPair s else complexityPair (trimStr cap)
  | none => oldPair s

/-- The `thoughts` local of `parseSolution` before the truthiness filter. -/
def thoughtsOf (s : Str) : List Str :=
  if approachOf s = msgNoApproach then
    match findLitIdx fenceS s with
    | some i =>
      if 0 < i then [trimStr (s.take i)]
      else if codeOf s = msgNoCode then [trimStr s] else [approachOf s]
    | none => if codeOf s = msgNoCode then [trimStr s] else [approachOf s]
  else [approachOf s]

/-- `ProcessingHelper.parseSolution`, embedded faithfully: truthiness of JS
regex captures makes an empty capture fall through exactly as in the source,
and `thoughts.filter((t) => t)` drops empty strings. -/
def parseSolution (solutionText : Option Str) : SolutionRec :=
  match solutionText with
  | none => ⟨msgNoSolution, [msgEmptyResp], msgNA, msgNA⟩
  | some s =>
    if s.isEmpty then ⟨msgNoSolution, [msgEmptyResp], msgNA, msgNA⟩
    else
      ⟨codeOf s, (thoughtsOf s).filter (fun t => !t.isEmpty),
        (complexityOf s).1, (complexityOf s).2⟩

/-! ### The processing pipeline of `ProcessingHelper.ts`

The pipeline is embedded as a pure state-transition function.  The pieces of
the application the helper only calls into are modelled as follows:

* the `ScreenshotHelper` queue store (whose source file is not part of the
  reviewed tree; its accessors `getScreenshotQueue`, `getExtraScreenshotQueue`,
  `clearQueues` and `clearExtraScreenshotQueue` are plain list accessors) is
  modelled as the two list fields of `PState`;
* `fs.readFileSync(path).toString("base64")` and `getImagePreview` are
  modelled as total reads of `Env.fileData`;
* each SDK call (OpenAI chat completion / Gemini `generateContent`, including
  the pre-call `signal.aborted` check of the Gemini branch) is modelled by the
  corresponding `ApiOutcome` of the environment: an aborted signal surfaces as
  a failure outcome whose error is the abort error;
* `webContents.send(...)` and every state mutation performed through `deps`
  are recorded as events of the trace.
-/

/-- The view state `"queue" | "solutions" | "debug"`. -/
inductive View where
  | queue
  | solutions
  | debug
deriving DecidableEq, Repr

/-- The error objects thrown by SDK calls or by `new Error(msg)`:
the fields inspected by the catch blocks of the source. -/
structure ApiError where
  message : Str
  name : Str
  code : Option Str
  respStatus : Option Nat
  respDataError : Option Str
deriving DecidableEq, Repr

/-- Outcome of one remote API call. -/
inductive ApiOutcome where
  | ok (text : Str)
  | fail (e : ApiError)
deriving DecidableEq, Repr

/-- An error constructed by `new Error(msg)`. -/
def mkErr (msg : Str) : ApiError := ⟨msg, "Error".toList, none, none, none⟩

/-- The cancellation test shared by all catch blocks:
`error.message === "Request aborted" || error.name === "AbortError"`. -/
def isAbortErr (e : ApiError) : Bool :=
  e.message = "Request aborted".toList || e.name = "AbortError".toList

/-- JS `a || b` on strings (empty is falsy). -/
def msgOr (m alt : Str) : Str := if m.isEmpty then alt else m

/-- JS `o?.includes(needle)` on an optional string. -/
def optContains (o : Option Str) (needle : Str) : Bool :=
  match o with
  | some v => containsLit v needle
  | none => false

/-- The environment of one run: configuration read from `process.env` and the
config store, plus the outcome of each possible remote call and the file
system contents.  An unset environment variable is the empty string (both
`undefined` and `""` are falsy in the source's tests). -/
structure Env where
  apiProvider : Str
  apiKey : Str
  model : Str
  language : Str
  extractOutcome : ApiOutcome
  solveOutcome : ApiOutcome
  debugOutcome : ApiOutcome
  fileData : Str → Str

/-- `process.env.API_PROVIDER || "openai"`. -/
def effProvider (env : Env) : Str :=
  if env.apiProvider.isEmpty then "openai".toList else env.apiProvider

/-- The mutable state touched by the pipeline: the main-process `state` of
`main.ts` (view, problem info, debug flag, window presence), the two
screenshot queues of the `ScreenshotHelper`, and the private fields of
`ProcessingHelper` (the busy flag and the two abort-controller slots, each
modelled by whether a controller is stored). -/
structure PState where
  view : View
  problemInfo : Option Str
  screenshotQueue : List Str
  extraScreenshotQueue : List Str
  hasDebugged : Bool
  isCurrentlyProcessing : Bool
  ctrlMain : Bool
  ctrlExtra : Bool
  mainWindow : Bool
deriving DecidableEq, Repr

/-- Which SDK a call went to. -/
inductive Sdk where
  | openai
  | gemini
deriving DecidableEq, Repr

/-- Which of the three helper calls an SDK call serves. -/
inductive Purpose where
  | extract
  | solve
  | debug
deriving DecidableEq, Repr

/-- Observable steps of a run: renderer events (`webContents.send`), file
reads, SDK calls, `parseSolution` invocations, state mutations through
`deps`, and the abort-controller lifecycle. -/
inductive Ev where
  | initialStart
  | noScreenshots
  | debugStart
  | readFile (path : Str) (data : Str)
  | sdkCall (sdk : Sdk) (purpose : Purpose)
  | parseCall (text : Str)
  | problemExtracted (info : Str)
  | solutionSuccess (sol : SolutionRec)
  | solutionError (msg : Str)
  | debugSuccess (sol : SolutionRec)
  | debugError (msg : Str)
  | apiKeyInvalid
  | resetViewMsg
  | stSetProblemInfo (info : Option Str)
  | stSetView (v : View)
  | stClearQueues
  | stClearExtraQueue
  | stSetHasDebugged (b : Bool)
  | ctrlCreated (extra : Bool)
  | ctrlCleared (extra : Bool)
deriving DecidableEq, Repr

/-- Result record of the three processing helpers
(`{ success: true, data } | { success: false, error }`). -/
inductive HRes where
  | ok (sol : SolutionRec)
  | err (msg : Str)
deriving DecidableEq, Repr

/-- Error message when no API key is configured. -/
def keyMissingMsg : Str := "API key not found. Please configure it in settings.".toList

/-- Error message prefix for an unknown provider. -/
def unsupportedMsg (p : Str) : Str := "Unsupported API provider: ".toList ++ p

/-- `ProcessingHelper.cancelOngoingRequests`: aborts and drops any stored
controller, resets the debug flag and the problem info, and notifies the
renderer when something was cancelled.  The second and third results report
whether the main (resp. extra) controller existed and was aborted. -/
def cancelOngoingRequests (st : PState) : PState × List Ev × Bool × Bool :=
  let am := st.ctrlMain
  let ae := st.ctrlExtra
  let wasCancelled := am || ae
  let st' : PState :=
    { st with ctrlMain := false, ctrlExtra := false,
              hasDebugged := false, problemInfo := none }
  let evs := [Ev.stSetHasDebugged false, Ev.stSetProblemInfo none] ++
    (if wasCancelled && st.mainWindow then [Ev.noScreenshots] else [])
  (st', evs, am, ae)

/-- `ProcessingHelper.cancelProcessing`: aborts and drops any stored
controller, with no other side effect. -/
def cancelProcessing (st : PState) : PState × Bool × Bool :=
  ({ st with ctrlMain := false, ctrlExtra := false }, st.ctrlMain, st.ctrlExtra)

/-- `main.ts`'s `clearQueues` dep: clears both screenshot queues, nulls the
problem info and resets the view to the queue. -/
def clearQueuesFn (st : PState) : PState :=
  { st with screenshotQueue := [], extraScreenshotQueue := [],
            problemInfo := none, view := View.queue }

/-- The catch block of `generateSolutionsHelper`. -/
def handleGenErr (st : PState) (e : ApiError) (pre : List Ev) :
    HRes × PState × List Ev :=
  if isAbortErr e then
    let evs := if st.mainWindow then
      [Ev.solutionError ("Solution generation canceled.".toList)] else []
    (.err ("Solution generation canceled.".toList), st, pre ++ evs)
  else if e.code = some ("ETIMEDOUT".toList) || e.respStatus = some 504 then
    let (st1, cevs, _, _) := cancelOngoingRequests st
    let st2 := { clearQueuesFn st1 with view := View.queue }
    let evs := if st2.mainWindow then
      [Ev.resetViewMsg,
       Ev.solutionError ("Request timed out. The server took too long to respond. Please try again.".toList)]
      else []
    (.err ("Request timed out. Please try again.".toList), st2,
      pre ++ cevs ++ [Ev.stClearQueues, Ev.stSetView View.queue] ++ evs)
  else if optContains e.respDataError
      ("Please close this window and re-enter a valid Open AI API key.".toList) then
    let evs := if st.mainWindow then [Ev.apiKeyInvalid] else []
    (.err (e.respDataError.getD []), st, pre ++ evs)
  else
    let evs := if st.mainWindow then
      [Ev.solutionError (msgOr e.message
        ("Server error during solution generation. Please try again.".toList))]
      else []
    (.err (msgOr e.message ("Unknown error during solution generation".toList)),
      { st with view := View.queue }, pre ++ evs ++ [Ev.stSetView View.queue])

/-- The `if openai / else if gemini / else throw` dispatch shared by the three
helpers. -/
def sdkOf (p : Str) : Option Sdk :=
  if p = "openai".toList then some Sdk.openai
  else if p = "gemini".toList then some Sdk.gemini
  else none

/-- `ProcessingHelper.generateSolutionsHelper`: checks the API key, the stored
problem info and the provider, performs the solution call and parses the
response; failures go through `handleGenErr`. -/
def generateSolutionsHelper (st : PState) (env : Env) : HRes × PState × List Ev :=
  if env.apiKey.isEmpty then
    handleGenErr st (mkErr keyMissingMsg) []
  else if st.problemInfo.isNone then
    handleGenErr st (mkErr ("No problem info available".toList)) []
  else
    match sdkOf (effProvider env) with
    | some sdk =>
      match env.solveOutcome with
      | .fail e => handleGenErr st e [Ev.sdkCall sdk Purpose.solve]
      | .ok t =>
        (.ok (parseSolution (some t)), st,
          [Ev.sdkCall sdk Purpose.solve] ++ [Ev.parseCall t])
    | none => handleGenErr st (mkErr (unsupportedMsg (effProvider env))) []

/-- Continuation of `processScreenshotsHelper` after a successful extraction
with a live window: send PROBLEM_EXTRACTED, generate the solutions, then
clear the extra queue and send the first SOLUTION_SUCCESS, or rethrow the
generation error (`new Error(solutionsResult.error || ...)`). -/
def extractFinish (sdk : Sdk) (t : Str) (env : Env) (st1 : PState) :
    HRes × PState × List Ev :=
  match generateSolutionsHelper st1 env with
  | (r2, st2, evs2) =>
    match r2 with
    | .ok sol =>
      (.ok sol, { st2 with extraScreenshotQueue := [] },
        [Ev.sdkCall sdk Purpose.extract, Ev.stSetProblemInfo (some t),
          Ev.problemExtracted t] ++ evs2 ++
          [Ev.stClearExtraQueue, Ev.solutionSuccess sol])
    | .err m =>
      (.err (msgOr m ("Failed to generate solutions".toList)), st2,
        [Ev.sdkCall sdk Purpose.extract, Ev.stSetProblemInfo (some t),
          Ev.problemExtracted t] ++ evs2)

/-- `ProcessingHelper.processScreenshotsHelper`.  `MAX_RETRIES` is `0`, so the
retry loop runs a single pass and every caught error returns immediately with
`{ success: false, error: error.message }`.  The one fall-through of the
source's loop (extraction succeeded but the window vanished mid-run) would
reissue the identical iteration forever; since the window flag is constant in
this model the branch is modelled by the source's post-loop failure record. -/
def processScreenshotsHelper (st : PState) (env : Env) : HRes × PState × List Ev :=
  if env.apiKey.isEmpty then (.err keyMissingMsg, st, [])
  else
    match sdkOf (effProvider env) with
    | none => (.err (unsupportedMsg (effProvider env)), st, [])
    | some sdk =>
      match env.extractOutcome with
      | .fail e => (.err e.message, st, [Ev.sdkCall sdk Purpose.extract])
      | .ok t =>
        if t.isEmpty then
          (.err ("Failed to extract problem information from the API.".toList),
            st, [Ev.sdkCall sdk Purpose.extract])
        else
          if st.mainWindow then
            extractFinish sdk t env { st with problemInfo := some t }
          else
            (.err ("Failed to process after multiple attempts. Please try again.".toList),
              { st with problemInfo := some t },
              [Ev.sdkCall sdk Purpose.extract, Ev.stSetProblemInfo (some t)])

/-- The catch block of `processExtraScreenshotsHelper`. -/
def handleDebugErr (st : PState) (e : ApiError) (pre : List Ev) :
    HRes × PState × List Ev :=
  if isAbortErr e then
    (.err ("Debug processing was canceled by the user.".toList), st, pre)
  else if e.code = some ("ETIMEDOUT".toList) ||
      containsLit (toLowerStr e.message) ("timeout".toList) then
    let (st1, cevs, _, _) := cancelOngoingRequests st
    let st2 := { clearQueuesFn st1 with view := View.queue }
    let evs := if st2.mainWindow then
      [Ev.resetViewMsg,
       Ev.debugError ("Debug request timed out. Please try again.".toList)] else []
    (.err ("Debug request timed out. Please try again.".toList), st2,
      pre ++ cevs ++ [Ev.stClearQueues, Ev.stSetView View.queue] ++ evs)
  else if optContains e.respDataError
      ("Please close this window and re-enter a valid Open AI API key.".toList) then
    let evs := if st.mainWindow then [Ev.apiKeyInvalid] else []
    (.err (msgOr (e.respDataError.getD []) ("Invalid API Key detected.".toList)),
      st, pre ++ evs)
  else if containsLit e.message ("API key not valid".toList) then
    let evs := if st.mainWindow then [Ev.apiKeyInvalid] else []
    (.err ("Invalid API Key for Gemini. Please check settings.".toList), st, pre ++ evs)
  else (.err e.message, st, pre)

/-- `ProcessingHelper.processExtraScreenshotsHelper`: checks the stored
problem info, the API key and the provider, performs the debug call and
parses the response; failures go through `handleDebugErr`. -/
def processExtraScreenshotsHelper (st : PState) (env : Env) :
    HRes × PState × List Ev :=
  if st.problemInfo.isNone then
    handleDebugErr st (mkErr ("No problem info available for debugging context.".toList)) []
  else if env.apiKey.isEmpty then
    handleDebugErr st (mkErr keyMissingMsg) []
  else
    match sdkOf (effProvider env) with
    | some sdk =>
      match env.debugOutcome with
      | .fail e => handleDebugErr st e [Ev.sdkCall sdk Purpose.debug]
      | .ok t =>
        (.ok (parseSolution (some t)), st,
          [Ev.sdkCall sdk Purpose.debug] ++ [Ev.parseCall t])
    | none => handleDebugErr st (mkErr (unsupportedMsg (effProvider env))) []

/-- Instrumentation describing how a run of `processScreenshots` ended. -/
inductive RunOutcome where
  | busy
  | noWindow
  | noShots
  | mainDone (r : HRes)
  | extraDone (r : HRes)
deriving DecidableEq, Repr

/-- The long key message sent when the helper error mentions a missing OpenAI
key (the branch at the top of the failure handling of `processScreenshots`). -/
def longKeyMsg : Str :=
  "OpenAI API key not found in environment variables. Please set the OPEN_AI_API_KEY environment variable.".toList

/-- The failure/success handling at the end of the queue branch of
`processScreenshots` (send SOLUTION_SUCCESS and switch to the solutions view,
or send the error — with the special wording for a missing OpenAI key — and
reset the view to the queue), followed by the `finally` that clears the main
abort controller. -/
def queueFinish (q : List Str) (env : Env) (res : HRes × PState × List Ev) :
    PState × List Ev × RunOutcome :=
  match res with
  | (r, st1, hevs) =>
    match r with
    | .err m =>
      ({ st1 with view := View.queue, ctrlMain := false },
       [Ev.initialStart, Ev.ctrlCreated false] ++
         q.map (fun p => Ev.readFile p (env.fileData p)) ++ hevs ++
         [Ev.solutionError (if containsLit m ("OpenAI API key not found".toList)
            then longKeyMsg else m),
          Ev.stSetView View.queue, Ev.ctrlCleared false],
       RunOutcome.mainDone r)
    | .ok sol =>
      ({ st1 with view := View.solutions, ctrlMain := false },
       [Ev.initialStart, Ev.ctrlCreated false] ++
         q.map (fun p => Ev.readFile p (env.fileData p)) ++ hevs ++
         [Ev.solutionSuccess sol, Ev.stSetView View.solutions,
          Ev.ctrlCleared false],
       RunOutcome.mainDone r)

/-- The queue-view branch of `processScreenshots`: INITIAL_START, the
empty-queue check, controller creation, the reads, and the helper. -/
def queueBranch (st : PState) (env : Env) : PState × List Ev × RunOutcome :=
  if st.screenshotQueue.isEmpty then
    (st, [Ev.initialStart, Ev.noScreenshots], RunOutcome.noShots)
  else
    queueFinish st.screenshotQueue env
      (processScreenshotsHelper { st with ctrlMain := true } env)

/-- The result handling at the end of the solutions-view branch of
`processScreenshots` (set the debug flag and send DEBUG_SUCCESS, or send
DEBUG_ERROR — the view is not touched), followed by the `finally` that clears
the extra abort controller. -/
def debugFinish (q : List Str) (env : Env) (res : HRes × PState × List Ev) :
    PState × List Ev × RunOutcome :=
  match res with
  | (r, st1, hevs) =>
    match r with
    | .ok sol =>
      ({ st1 with hasDebugged := true, ctrlExtra := false },
       [Ev.debugStart, Ev.ctrlCreated true] ++
         q.map (fun p => Ev.readFile p (env.fileData p)) ++ hevs ++
         [Ev.stSetHasDebugged true, Ev.debugSuccess sol, Ev.ctrlCleared true],
       RunOutcome.extraDone r)
    | .err m =>
      ({ st1 with ctrlExtra := false },
       [Ev.debugStart, Ev.ctrlCreated true] ++
         q.map (fun p => Ev.readFile p (env.fileData p)) ++ hevs ++
         [Ev.debugError m, Ev.ctrlCleared true],
       RunOutcome.extraDone r)

/-- The solutions-view branch of `processScreenshots`: the empty-extra-queue
check, DEBUG_START, controller creation, the combined reads, the helper. -/
def debugBranch (st : PState) (env : Env) : PState × List Ev × RunOutcome :=
  if st.extraScreenshotQueue.isEmpty then
    (st, [Ev.noScreenshots], RunOutcome.noShots)
  else
    debugFinish (st.screenshotQueue ++ st.extraScreenshotQueue) env
      (processExtraScreenshotsHelper { st with ctrlExtra := true } env)

/-- The outer `finally` of `processScreenshots` (`isCurrentlyProcessing` is
reset). -/
def finishRun (r : PState × List Ev × RunOutcome) : PState × List Ev × RunOutcome :=
  match r with
  | (st, evs, out) => ({ st with isCurrentlyProcessing := false }, evs, out)

/-- `ProcessingHelper.processScreenshots`: the public pipeline entry.  The
early return for a missing window happens after the busy flag is set and
before the `try`/`finally` that resets it, exactly as in the source; all
other paths reset the flag and clear the controller slot they created. -/
def processScreenshots (st : PState) (env : Env) : PState × List Ev × RunOutcome :=
  if st.isCurrentlyProcessing then (st, [], .busy)
  else if !st.mainWindow then
    ({ st with isCurrentlyProcessing := true }, [], .noWindow)
  else if st.view = View.queue then
    finishRun (queueBranch { st with isCurrentlyProcessing := true } env)
  else
    finishRun (debugBranch { st with isCurrentlyProcessing := true } env)

/-! ### The window-visibility machine of `main.ts` and `ipcHandlers.ts`

The `BrowserWindow` is modelled by the fields the claims observe (bounds,
opacity, shown, destroyed, and the mouse-event pass-through pair); the
always-on-top / workspace / content-protection flags the same code paths also
set are omitted from the model.  A call that would throw a `TypeError` in the
source (accessing a member of a null window) is modelled by `none`. -/

/-- A window rectangle (`getBounds` / `setBounds`). -/
structure Bounds where
  x : Int
  y : Int
  width : Int
  height : Int
deriving DecidableEq, Repr

/-- The modelled `BrowserWindow`. -/
structure Win where
  bounds : Bounds
  opacity : Nat
  shown : Bool
  destroyed : Bool
  ignoreMouse : Bool
  forwardMouse : Bool
deriving DecidableEq, Repr

/-- The window-related part of `main.ts`'s `state`. -/
structure MState where
  mainWindow : Option Win
  isWindowVisible : Bool
  windowPosition : Option (Int × Int)
  windowSize : Option (Int × Int)
deriving DecidableEq, Repr

/-- `state.mainWindow?.setIgnoreMouseEvents(ign, { forward: fwd })`
(no-op when there is no window; `setIgnoreMouseEvents(false)` without an
options object is modelled with `fwd = false`). -/
def setIgnoreMouseEvents (st : MState) (ign fwd : Bool) : MState :=
  match st.mainWindow with
  | some w =>
    { st with mainWindow := some { w with ignoreMouse := ign, forwardMouse := fwd } }
  | none => st

/-- The `did-finish-load` listener installed by `createWindow`. -/
def didFinishLoadHandler (st : MState) : MState := setIgnoreMouseEvents st true true

/-- The `did-start-loading` listener installed by `createWindow`. -/
def didStartLoadingHandler (st : MState) : MState := setIgnoreMouseEvents st true true

/-- The `show` listener installed by `createWindow`. -/
def showHandler (st : MState) : MState := setIgnoreMouseEvents st true true

/-- The `ready-to-show` listener installed by `createWindow`. -/
def readyToShowHandler (st : MState) : MState := setIgnoreMouseEvents st true true

/-- The initial window rectangle of `createWindow`
(`width 800, height 600, x state.currentX = 0, y 50`). -/
def initialBounds : Bounds := ⟨0, 50, 800, 600⟩

/-- `main.ts`'s `createWindow`: returns the existing window unchanged, or
creates one (shown, opacity 1) and immediately makes it click-through with
forwarding, then records its bounds and marks it visible. -/
def createWindow (st : MState) : MState :=
  match st.mainWindow with
  | some _ => st
  | none =>
    { mainWindow := some
        { bounds := initialBounds, opacity := 1, shown := true,
          destroyed := false, ignoreMouse := true, forwardMouse := true },
      isWindowVisible := true,
      windowPosition := some (initialBounds.x, initialBounds.y),
      windowSize := some (initialBounds.width, initialBounds.height) }

/-- `main.ts`'s `hideMainWindow`.  The guard `!state.mainWindow?.isDestroyed()`
lets a null window through into `getBounds()`, which throws: modelled by
`none`.  A destroyed window is left untouched. -/
def hideMainWindow (st : MState) : Option MState :=
  match st.mainWindow with
  | none => none
  | some w =>
    if w.destroyed then some st
    else
      some { st with
        windowPosition := some (w.bounds.x, w.bounds.y),
        windowSize := some (w.bounds.width, w.bounds.height),
        mainWindow := some { w with ignoreMouse := true, forwardMouse := true,
                                    opacity := 0, shown := false },
        isWindowVisible := false }

/-- `main.ts`'s `showMainWindow`: restores the saved bounds when both are
present, re-asserts click-through, shows at opacity 0 and then raises the
opacity to 1.  The same null-window crash as in `hideMainWindow` is `none`. -/
def showMainWindow (st : MState) : Option MState :=
  match st.mainWindow with
  | none => none
  | some w =>
    if w.destroyed then some st
    else
      let b :=
        match st.windowPosition, st.windowSize with
        | some (px, py), some (sw, sh) => Bounds.mk px py sw sh
        | _, _ => w.bounds
      some { st with
        mainWindow := some { w with bounds := b, ignoreMouse := true,
                                    forwardMouse := true, opacity := 1, shown := true },
        isWindowVisible := true }

/-- `main.ts`'s `toggleMainWindow`. -/
def toggleMainWindow (st : MState) : Option MState :=
  if st.isWindowVisible then hideMainWindow st else showMainWindow st

/-- The `toggle-window` IPC handler of `ipcHandlers.ts`: toggles, then resets
mouse events with `setIgnoreMouseEvents(false)` followed by
`setIgnoreMouseEvents(true, { forward: true })`.  The surrounding `try`/`catch`
turns a crash of the toggle into an error result without the mouse reset. -/
def toggleWindowHandler (st : MState) : MState × Bool :=
  match toggleMainWindow st with
  | none => (st, false)
  | some st1 =>
    match st1.mainWindow with
    | some w =>
      if w.destroyed then (st1, true)
      else (setIgnoreMouseEvents (setIgnoreMouseEvents st1 false false) true true, true)
    | none => (st1, true)

/-- A window exists and is in click-through-with-forwarding mode. -/
def clickThrough (st : MState) : Bool :=
  match st.mainWindow with
  | some w => w.ignoreMouse && w.forwardMouse
  | none => false

/-! ### The JSON config store of `main.ts`

The file is modelled by its parsed JSON object (`none` when missing); JSON
serialisation is assumed faithful for JSON-serialisable values, so
`JSON.parse` after `JSON.stringify` is the identity here. -/

/-- JSON values (what `JSON.stringify`/`JSON.parse` round-trips). -/
inductive Json where
  | null
  | bool (b : Bool)
  | num (n : Int)
  | str (s : Str)
deriving DecidableEq, Repr

/-- A parsed config object: its fields in insertion order. -/
abbrev Config := List (Str × Json)

/-- The object spread `{ ...config, [key]: value }`: replaces the value in
place when the key exists, otherwise appends the new field. -/
def setKey (cfg : Config) (k : Str) (v : Json) : Config :=
  if cfg.any (fun p => p.1 = k) then
    cfg.map (fun p => if p.1 = k then (k, v) else p)
  else cfg ++ [(k, v)]

/-- Field access `config[key]` (`none` for `undefined`). -/
def getKey (cfg : Config) (k : Str) : Option Json :=
  match cfg.find? (fun p => p.1 = k) with
  | some p => some p.2
  | none => none

/-- `setStoreValue` on the successful path: the store's `set` reads the file
(treating a missing or unreadable one as `{}`), merges the new pair into the
parsed object and writes the result back.  Returns the new file contents. -/
def setStoreValue (file : Option Config) (k : Str) (v : Json) : Config :=
  setKey (file.getD []) k v

/-- `getStoreValue`: the store's `get` returns `undefined` when the file is
missing (after creating an empty one), else the parsed object's field. -/
def getStoreValue (file : Option Config) (k : Str) : Option Json :=
  match file with
  | none => none
  | some cfg => getKey cfg k

/-- The `set-api-config` IPC handler: validates the key and model, derives
the provider from the model prefix (`model.startsWith("gemini")`), stores the
three values, and reports the derived provider.  Returns the file unchanged
and `none` when validation fails. -/
def setApiConfigHandler (file : Option Config) (apiKey model : Str) :
    Option Config × Option Str :=
  if apiKey.isEmpty || (trimStr apiKey).isEmpty then (file, none)
  else if model.isEmpty then (file, none)
  else
    let provider :=
      if litStarts ("gemini".toList) model then "gemini".toList else "openai".toList
    let f1 := setStoreValue file ("api-key".toList) (Json.str (trimStr apiKey))
    let f2 := setStoreValue (some f1) ("api-model".toList) (Json.str model)
    let f3 := setStoreValue (some f2) ("api-provider".toList) (Json.str provider)
    (some f3, some provider)

/-! ### Concrete fixtures used to evaluate the model -/

/-- A well-formed markdown solution response. -/
def sampleSolText : Str :=
  "## Approach\nA.\n## Solution\n```py\nx=1\n```\n## Complexity\nTime Complexity: O(n)\nSpace Complexity: O(1)".toList

/-- A response with no headings, exercising the fallback extractions. -/
def fallbackSolText : Str :=
  "hello\n```py\ncode here\n```\nthe time complexity is O(n log n) overall and space complexity: O(1)".toList

/-- An environment where both API calls succeed on the OpenAI provider. -/
def sampleEnv : Env := {
  apiProvider := "openai".toList,
  apiKey := "k".toList,
  model := "gpt-4o".toList,
  language := "python".toList,
  extractOutcome := .ok ("problem text".toList),
  solveOutcome := .ok sampleSolText,
  debugOutcome := .ok ("dbg".toList),
  fileData := fun _ => "DATA".toList }

/-- Idle state in the queue view with one queued screenshot. -/
def sampleQueueState : PState := {
  view := View.queue, problemInfo := none, screenshotQueue := ["a".toList],
  extraScreenshotQueue := [], hasDebugged := false, isCurrentlyProcessing := false,
  ctrlMain := false, ctrlExtra := false, mainWindow := true }

/-- The same state with the main window gone. -/
def sampleNoWindowState : PState := { sampleQueueState with mainWindow := false }

/-- State in the solutions view with an extra screenshot and stored problem. -/
def sampleDebugState : PState := {
  sampleQueueState with
  view := View.solutions,
  extraScreenshotQueue := ["e".toList],
  problemInfo := some ("p".toList) }

/-- Environment with no configured API key. -/
def envNoKey : Env := { sampleEnv with apiKey := [] }

/-- Environment whose provider string contains the substring `timeout`. -/
def envTimeoutProv : Env := { sampleEnv with apiProvider := "timeout".toList }

/-- Environment with an unsupported provider string. -/
def envNoProvider : Env := { sampleEnv with apiProvider := "other".toList }

/-- Environment whose extraction call is aborted. -/
def envExtractAbort : Env :=
  { sampleEnv with extractOutcome := .fail (mkErr ("Request aborted".toList)) }

/-- Environment whose solution call is aborted. -/
def envSolveAbort : Env :=
  { sampleEnv with solveOutcome := .fail (mkErr ("Request aborted".toList)) }

/-- Environment whose debug call fails with a timeout-worded error. -/
def envDebugTimeout : Env :=
  { sampleEnv with debugOutcome := .fail (mkErr ("socket timeout".toList)) }

/-- Environment whose debug call is aborted. -/
def envDebugAbort : Env :=
  { sampleEnv with debugOutcome := .fail (mkErr ("Request aborted".toList)) }

/-- Events that report a successful result to the renderer
(SOLUTION_SUCCESS or DEBUG_SUCCESS). -/
def isSuccessEv : Ev → Bool
  | Ev.solutionSuccess _ => true
  | Ev.debugSuccess _ => true
  | _ => false

/-- A live overlay window in click-through mode. -/
def sampleWin : Win :=
  { bounds := initialBounds, opacity := 1, shown := true, destroyed := false,
    ignoreMouse := true, forwardMouse := true }

/-- Window state right after `createWindow`. -/
def sampleMState : MState :=
  { mainWindow := some sampleWin, isWindowVisible := true,
    windowPosition := some (initialBounds.x, initialBounds.y),
    windowSize := some (initialBounds.width, initialBounds.height) }

/-! ### Lemmas about the config store -/

theorem find?_map_setKey_self {k : Str} {v : Json} (cfg : Config)
    (hany : cfg.any (fun p => p.1 = k) = true) :
    (cfg.map (fun p => if p.1 = k then (k, v) else p)).find?
      (fun p => p.1 = k) = some (k, v) := by
  induction cfg with
  | nil => simp at hany
  | cons p ps ih =>
    rw [List.map_cons]
    by_cases hp : p.1 = k
    · rw [if_pos hp, List.find?_cons_of_pos _ (by simp)]
    · have h' : ps.any (fun q => q.1 = k) = true := by
        simp only [List.any_cons, hp, decide_False, Bool.false_or] at hany
        exact hany
      rw [if_neg hp, List.find?_cons_of_neg _ (by simp [hp])]
      exact ih h'

theorem find?_setKey_self (cfg : Config) (k : Str) (v : Json) :
    (setKey cfg k v).find? (fun p => p.1 = k) = some (k, v) := by
  unfold setKey
  by_cases hany : cfg.any (fun p => p.1 = k)
  · rw [if_pos hany]
    exact find?_map_setKey_self cfg hany
  · rw [if_neg hany, List.find?_append]
    have hnone : cfg.find? (fun p => p.1 = k) = none := by
      rw [List.find?_eq_none]
      intro x hx
      simp only [Bool.not_eq_true, decide_eq_false_iff_not]
      intro hxk
      exact hany (List.any_eq_true.mpr ⟨x, hx, by simp [hxk]⟩)
    simp [hnone]

theorem find?_map_setKey_other {k k' : Str} (h : k' ≠ k) (v : Json) :
    ∀ cfg : Config,
      (cfg.map (fun p => if p.1 = k then (k, v) else p)).find?
        (fun p => p.1 = k') = cfg.find? (fun p => p.1 = k')
  | [] => rfl
  | p :: ps => by
    rw [List.map_cons]
    by_cases hp : p.1 = k
    · rw [if_pos hp, List.find?_cons_of_neg _ (by simp [Ne.symm h]),
        List.find?_cons_of_neg _ (by simp [hp, Ne.symm h]),
        find?_map_setKey_other h v ps]
    · by_cases hq : p.1 = k'
      · rw [if_neg hp, List.find?_cons_of_pos _ (by simp [hq]),
          List.find?_cons_of_pos _ (by simp [hq])]
      · rw [if_neg hp, List.find?_cons_of_neg _ (by simp [hq]),
          List.find?_cons_of_neg _ (by simp [hq]),
          find?_map_setKey_other h v ps]

theorem find?_setKey_other {k k' : Str} (h : k' ≠ k) (cfg : Config) (v : Json) :
    (setKey cfg k v).find? (fun p => p.1 = k') =
      cfg.find? (fun p => p.1 = k') := by
  unfold setKey
  by_cases hany : cfg.any (fun p => p.1 = k)
  · rw [if_pos hany]
    exact find?_map_setKey_other h v cfg
  · rw [if_neg hany, List.find?_append]
    have hone : ([((k : Str), v)].find? (fun p => p.1 = k')) = none := by
      rw [List.find?_cons_of_neg _ (by simp [Ne.symm h])]
      rfl
    rw [hone]
    cases cfg.find? (fun p => p.1 = k') <;> rfl

/-- C10: the JSON config store satisfies the round-trip and frame property:
after `setStoreValue k v` succeeds, `getStoreValue k` returns `v`, and every
other key reads the same value as before, because `set` merges the new pair
into the parsed config object before writing. -/
theorem store_set_get_roundtrip (file : Option Config) (k k' : Str) (v : Json)
    (h : k' ≠ k) :
    getStoreValue (some (setStoreValue file k v)) k = some v ∧
    getStoreValue (some (setStoreValue file k v)) k' = getStoreValue file k' := by
  constructor
  · simp [getStoreValue, setStoreValue, getKey, find?_setKey_self]
  · cases file with
    | none =>
      simp [getStoreValue, setStoreValue, getKey, find?_setKey_other h]
    | some cfg =>
      simp [getStoreValue, setStoreValue, getKey, find?_setKey_other h]

/-- Witness for C10: concrete round trip on a one-field config file. -/
theorem store_set_get_roundtrip_w :
    getStoreValue (some (setStoreValue (some [("a".toList, Json.num 1)])
      ("b".toList) (Json.num 2))) ("b".toList) = some (Json.num 2) ∧
    getStoreValue (some (setStoreValue (some [("a".toList, Json.num 1)])
      ("b".toList) (Json.num 2))) ("a".toList) = some (Json.num 1) := by
  have h := store_set_get_roundtrip (some [("a".toList, Json.num 1)])
    ("b".toList) ("a".toList) (Json.num 2) (by decide)
  exact ⟨h.1, h.2.trans (by decide)⟩

/-! ### Lemmas about `parseSolution` -/

theorem dropWhile_head_not {p : Char → Bool} :
    ∀ (l : Str) (c : Char) (cs : Str), l.dropWhile p = c :: cs → p c = false := by
  intro l
  induction l with
  | nil => intro c cs h; cases h
  | cons a as ih =>
    intro c cs h
    by_cases hp : p a
    · rw [List.dropWhile_cons_of_pos hp] at h
      exact ih c cs h
    · rw [List.dropWhile_cons_of_neg hp] at h
      cases h
      simpa using hp

theorem takeWhile_head {q : Char → Bool} :
    ∀ (w : Str) (c : Char) (cs : Str), w.takeWhile q = c :: cs →
      ∃ ws, w = c :: ws := by
  intro w
  cases w with
  | nil => intro c cs h; cases h
  | cons a as =>
    intro c cs h
    by_cases hq : q a
    · rw [List.takeWhile_cons_of_pos hq] at h
      injection h with h1 _
      exact ⟨as, by rw [h1]⟩
    · rw [List.takeWhile_cons_of_neg hq] at h
      cases h

theorem trimStr_ne_nil {c : Char} (cs : Str) (h : isWsChar c = false) :
    trimStr (c :: cs) ≠ [] := by
  unfold trimStr
  rw [List.dropWhile_cons_of_neg (by simp [h])]
  intro hcon
  rw [List.reverse_eq_nil_iff, List.dropWhile_eq_nil_iff] at hcon
  have := hcon c (by simp)
  rw [h] at this
  cases this

theorem lineCap_trim_ne {u : Str} (h : (lineCap u).isEmpty = false) :
    trimStr (lineCap u) ≠ [] := by
  rcases hcap : lineCap u with _ | ⟨c, cs⟩
  · rw [hcap] at h
    cases h
  · unfold lineCap at hcap
    obtain ⟨ws', hws⟩ := takeWhile_head _ c cs hcap
    exact trimStr_ne_nil cs (dropWhile_head_not _ c ws' hws)

theorem lineAfterCI_trim_ne {lbl s v : Str} (h : lineAfterCI lbl s = some v) :
    trimStr v ≠ [] := by
  unfold lineAfterCI at h
  split at h
  · cases h
  · split at h
    · cases h
    · rename_i hne
      injection h with h
      subst h
      exact lineCap_trim_ne (by simpa using hne)

theorem take_pos_ne_nil {n : Nat} {c : Char} {cs : Str} (h : 0 < n) :
    (c :: cs).take n ≠ [] := by
  cases n with
  | zero => cases h
  | succ m => simp [List.take_succ_cons]

theorem matchAtHead_ne {c : Char} {cs m : Str}
    (h : matchAtHead (c :: cs) = some m) : m ≠ [] := by
  unfold matchAtHead at h
  split at h
  · cases h
  · split at h
    · split at h
      · injection h with h
        subst h
        exact take_pos_ne_nil (by omega)
      · cases h
    · cases h

theorem genericO_ne : ∀ {s m : Str}, genericO s = some m → m ≠ [] := by
  intro s
  induction s with
  | nil => intro m h; cases h
  | cons c cs ih =>
    intro m h
    unfold genericO at h
    split at h
    · rename_i m' hm
      injection h with h
      subst h
      exact matchAtHead_ne hm
    · exact ih h

theorem oldAtTail_pos {r : Str} {n : Nat} (h : oldAtTail r = some n) : 0 < n := by
  unfold oldAtTail at h
  split at h
  · rw [Option.map_eq_some'] at h
    obtain ⟨k, -, hk⟩ := h
    omega
  · cases h

theorem oldAt_pos {w s : Str} {n : Nat} (h : oldAt w s = some n) : 0 < n := by
  unfold oldAt at h
  split at h
  · rw [Option.map_eq_some'] at h
    obtain ⟨k, hk, hn⟩ := h
    have := oldAtTail_pos hk
    omega
  · cases h

theorem oldScan_ne {w : Str} : ∀ {s m : Str}, oldScan w s = some m → m ≠ [] := by
  intro s
  induction s with
  | nil => intro m h; cases h
  | cons c cs ih =>
    intro m h
    unfold oldScan at h
    split at h
    · rename_i n hn
      injection h with h
      subst h
      exact take_pos_ne_nil (oldAt_pos hn)
    · exact ih h

theorem oldComplexityOf_ne {w dflt s : Str} (hd : dflt ≠ []) :
    oldComplexityOf w dflt s ≠ [] := by
  unfold oldComplexityOf
  split
  · rename_i m hm
    exact oldScan_ne hm
  · exact hd

theorem oldPair_ne (s : Str) : (oldPair s).1 ≠ [] ∧ (oldPair s).2 ≠ [] :=
  ⟨oldComplexityOf_ne (by decide), oldComplexityOf_ne (by decide)⟩

theorem complexityTimeRaw_ne (cx : Str) : complexityTimeRaw cx ≠ [] := by
  unfold complexityTimeRaw
  split
  · rename_i v hv
    exact lineAfterCI_trim_ne hv
  · decide

theorem complexitySpaceRaw_ne (cx : Str) : complexitySpaceRaw cx ≠ [] := by
  unfold complexitySpaceRaw
  split
  · rename_i v hv
    exact lineAfterCI_trim_ne hv
  · decide

theorem complexityPick_ne {cx t sp : Str} (h1 : t ≠ []) (h2 : sp ≠ []) :
    (complexityPick cx t sp).1 ≠ [] ∧ (complexityPick cx t sp).2 ≠ [] := by
  unfold complexityPick
  split
  · split
    · rename_i m hm
      exact ⟨genericO_ne hm, (by decide : msgExtracted ≠ [])⟩
    · exact ⟨h1, h2⟩
  · exact ⟨h1, h2⟩

theorem complexityPair_ne (cx : Str) :
    (complexityPair cx).1 ≠ [] ∧ (complexityPair cx).2 ≠ [] :=
  complexityPick_ne (complexityTimeRaw_ne cx) (complexitySpaceRaw_ne cx)

theorem complexityOf_ne (s : Str) :
    (complexityOf s).1 ≠ [] ∧ (complexityOf s).2 ≠ [] := by
  unfold complexityOf
  split
  · split
    · exact oldPair_ne s
    · exact complexityPair_ne _
  · exact oldPair_ne s

theorem neNil_isEmpty {α : Type} {l : List α} (h : l ≠ []) : l.isEmpty = false := by
  rw [← Bool.not_eq_true, List.isEmpty_iff]
  exact h

theorem parseSolution_some (s : Str) (hs : s.isEmpty = false) :
    parseSolution (some s) =
      ⟨codeOf s, (thoughtsOf s).filter (fun t => !t.isEmpty),
        (complexityOf s).1, (complexityOf s).2⟩ := by
  simp only [parseSolution]
  rw [hs, if_neg Bool.false_ne_true]

theorem codeOf_sol {s cap : Str} (h : solutionRaw s = some cap) (hne : cap ≠ []) :
    codeOf s = trimStr cap := by
  unfold codeOf
  simp [h, neNil_isEmpty hne]

theorem codeOf_fb {s cap : Str} (h : solutionRaw s = none ∨ solutionRaw s = some [])
    (hf : fenceCapture s = some cap) (hne : cap ≠ []) :
    codeOf s = trimStr cap := by
  have hfb : codeFallback s = trimStr cap := by
    unfold codeFallback
    simp [hf, neNil_isEmpty hne]
  unfold codeOf
  rcases h with h | h
  · simp [h, hfb]
  · simp [h, hfb]

theorem approachOf_eq {s cap : Str} (h : approachRaw s = some cap) (hne : cap ≠ []) :
    approachOf s = trimStr cap := by
  unfold approachOf
  simp [h, neNil_isEmpty hne]

theorem thoughtsOf_eq {s cap : Str} (h : approachRaw s = some cap) (hne : cap ≠ [])
    (hali : trimStr cap ≠ msgNoApproach) : thoughtsOf s = [trimStr cap] := by
  unfold thoughtsOf
  rw [approachOf_eq h hne, if_neg hali]

theorem complexityOf_sec {s cap : Str} (h : complexityRaw s = some cap)
    (hne : cap ≠ []) : complexityOf s = complexityPair (trimStr cap) := by
  unfold complexityOf
  simp [h, neNil_isEmpty hne]

theorem complexityOf_old {s : Str}
    (h : complexityRaw s = none ∨ complexityRaw s = some []) :
    complexityOf s = oldPair s := by
  unfold complexityOf
  rcases h with h | h
  · simp [h]
  · simp [h]

theorem complexityPick_time {cx t sp : Str} (ht : t ≠ msgTimeUnspec) :
    (complexityPick cx t sp).1 = t := by
  unfold complexityPick
  rw [if_neg (by simp [ht])]

theorem complexityPick_space {cx t sp : Str} (hsp : sp ≠ msgSpaceUnspec) :
    (complexityPick cx t sp).2 = sp := by
  unfold complexityPick
  rw [if_neg (by simp [hsp])]

theorem complexityTimeRaw_eq {cx v : Str}
    (h : lineAfterCI ("time complexity:".toList) cx = some v) :
    complexityTimeRaw cx = trimStr v := by
  have hdef : complexityTimeRaw cx =
      (match lineAfterCI ("time complexity:".toList) cx with
       | some v => trimStr v
       | none => msgTimeUnspec) := rfl
  rw [hdef, h]

theorem complexitySpaceRaw_eq {cx v : Str}
    (h : lineAfterCI ("space complexity:".toList) cx = some v) :
    complexitySpaceRaw cx = trimStr v := by
  have hdef : complexitySpaceRaw cx =
      (match lineAfterCI ("space complexity:".toList) cx with
       | some v => trimStr v
       | none => msgSpaceUnspec) := rfl
  rw [hdef, h]

/-- C5 (amended): `parseSolution` parses the markdown by the claimed regexes,
with the proviso that a match whose capture is the empty string is falsy in
the source and therefore counts as no match (an empty code block or section
falls through to the next fallback), and that extracted texts literally equal
to the placeholder strings are indistinguishable from them: `code` is the
trimmed Solution-section block, else the trimmed first block anywhere;
`thoughts` is the trimmed Approach body; `time_complexity` and
`space_complexity` come from the `Time Complexity:` / `Space Complexity:`
lines of the Complexity section when present, otherwise from the legacy
whole-text fallback regexes. -/
theorem parseSolution_regex_extraction (s : Str) (hs : s.isEmpty = false) :
    (∀ cap, solutionRaw s = some cap → cap ≠ [] →
       (parseSolution (some s)).code = trimStr cap) ∧
    ((solutionRaw s = none ∨ solutionRaw s = some []) →
       ∀ cap, fenceCapture s = some cap → cap ≠ [] →
         (parseSolution (some s)).code = trimStr cap) ∧
    (∀ cap, approachRaw s = some cap → cap ≠ [] → trimStr cap ≠ msgNoApproach →
       (parseSolution (some s)).thoughts =
         if (trimStr cap).isEmpty then [] else [trimStr cap]) ∧
    (∀ cap, complexityRaw s = some cap → cap ≠ [] →
       (∀ v, lineAfterCI ("time complexity:".toList) (trimStr cap) = some v →
          trimStr v ≠ msgTimeUnspec →
          (parseSolution (some s)).time_complexity = trimStr v) ∧
       (∀ v, lineAfterCI ("space complexity:".toList) (trimStr cap) = some v →
          trimStr v ≠ msgSpaceUnspec →
          (parseSolution (some s)).space_complexity = trimStr v)) ∧
    ((complexityRaw s = none ∨ complexityRaw s = some []) →
       (parseSolution (some s)).time_complexity =
         oldComplexityOf ("time".toList) msgTimeUnspec s ∧
       (parseSolution (some s)).space_complexity =
         oldComplexityOf ("space".toList) msgSpaceUnspec s) := by
  rw [parseSolution_some s hs]
  refine ⟨?_, ?_, ?_, ?_, ?_⟩
  · intro cap h hne
    exact codeOf_sol h hne
  · intro h cap hf hne
    exact codeOf_fb h hf hne
  · intro cap h hne hali
    rw [thoughtsOf_eq h hne hali]
    by_cases he : (trimStr cap).isEmpty
    · rw [if_pos he]
      simp [List.filter, he]
    · rw [if_neg he]
      simp only [Bool.not_eq_true] at he
      simp [List.filter, he]
  · intro cap h hne
    constructor
    · intro v hv hali
      rw [complexityOf_sec h hne]
      unfold complexityPair
      rw [complexityTimeRaw_eq hv]
      exact complexityPick_time hali
    · intro v hv hali
      rw [complexityOf_sec h hne]
      unfold complexityPair
      rw [complexitySpaceRaw_eq hv]
      exact complexityPick_space hali
  · intro h
    rw [complexityOf_old h]
    exact ⟨rfl, rfl⟩

/-- Counterexample for C5: on `## Solution` followed by an empty fenced block
the regex matches with an empty capture, yet `code` is the placeholder, not
the trimmed contents of that first block after the heading. -/
theorem parseSolution_empty_block_not_used :
    solutionRaw ("## Solution\n```a\n```".toList) = some [] ∧
    (parseSolution (some ("## Solution\n```a\n```".toList))).code = msgNoCode ∧
    msgNoCode ≠ trimStr [] := by
  decide

/-- Witness for C5: the amended extraction evaluated on a full response and on
a heading-free response. -/
theorem parseSolution_regex_extraction_w :
    (parseSolution (some sampleSolText)).code = trimStr ("x=1\n".toList) ∧
    (parseSolution (some sampleSolText)).thoughts = [trimStr ("\nA.\n".toList)] ∧
    (parseSolution (some sampleSolText)).time_complexity = trimStr ("O(n)".toList) ∧
    (parseSolution (some sampleSolText)).space_complexity = trimStr ("O(1)".toList) ∧
    (parseSolution (some fallbackSolText)).code = trimStr ("code here\n".toList) ∧
    (parseSolution (some fallbackSolText)).time_complexity =
      oldComplexityOf ("time".toList) msgTimeUnspec fallbackSolText := by
  have h1 := parseSolution_regex_extraction sampleSolText (by decide)
  have h2 := parseSolution_regex_extraction fallbackSolText (by decide)
  refine ⟨?_, ?_, ?_, ?_, ?_, ?_⟩
  · exact h1.1 ("x=1\n".toList) (by decide) (by decide)
  · exact (h1.2.2.1 ("\nA.\n".toList) (by decide) (by decide)
      (by decide)).trans (by decide)
  · exact (h1.2.2.2.1 ("\nTime Complexity: O(n)\nSpace Complexity: O(1)".toList)
      (by decide) (by decide)).1 ("O(n)".toList) (by decide) (by decide)
  · exact (h1.2.2.2.1 ("\nTime Complexity: O(n)\nSpace Complexity: O(1)".toList)
      (by decide) (by decide)).2 ("O(1)".toList) (by decide) (by decide)
  · exact h2.2.1 (by decide) ("code here\n".toList) (by decide) (by decide)
  · exact (h2.2.2.2.2 (by decide)).1

/-- C6 (amended): for every input — `null`, the empty string, or any text —
`parseSolution` returns non-empty `time_complexity` and `space_complexity`
strings, and every entry of `thoughts` is a non-empty string.  The `thoughts`
list itself can be empty and the `code` string can be empty (the claim's
non-emptiness of those two fails when the matched approach text or code block
is pure whitespace). -/
theorem parseSolution_fields (o : Option Str) :
    (parseSolution o).time_complexity ≠ [] ∧
    (parseSolution o).space_complexity ≠ [] ∧
    ∀ t ∈ (parseSolution o).thoughts, t ≠ [] := by
  cases o with
  | none => exact ⟨by decide, by decide, by decide⟩
  | some s =>
    by_cases hs : s.isEmpty
    · rw [List.isEmpty_iff] at hs
      subst hs
      exact ⟨by decide, by decide, by decide⟩
    · rw [Bool.not_eq_true] at hs
      have hred : parseSolution (some s) =
        ⟨codeOf s, (thoughtsOf s).filter (fun t => !t.isEmpty),
          (complexityOf s).1, (complexityOf s).2⟩ := by
        simp only [parseSolution]
        rw [hs, if_neg Bool.false_ne_true]
      rw [hred]
      refine ⟨(complexityOf_ne s).1, (complexityOf_ne s).2, ?_⟩
      intro t ht
      rw [List.mem_filter] at ht
      have := ht.2
      intro hnil
      subst hnil
      simp at this

/-- Counterexample for C6: on an input whose Approach body and Solution code
block are whitespace, `parseSolution` returns an empty `thoughts` list and an
empty `code` string, against the claimed non-emptiness of both. -/
theorem parseSolution_whitespace_degenerate :
    (parseSolution (some ("## Approach\n \n## Solution\n```x\n \n```".toList))).thoughts
        = [] ∧
    (parseSolution (some ("## Approach\n \n## Solution\n```x\n \n```".toList))).code
        = [] ∧
    (parseSolution (some ("   ".toList))).thoughts = [] := by
  decide

/-- Witness for C6: the amended guarantee evaluated on a concrete response. -/
theorem parseSolution_fields_w :
    (parseSolution (some ("x".toList))).time_complexity ≠ [] ∧
    (parseSolution (some ("x".toList))).space_complexity ≠ [] ∧
    ("x".toList ∈ (parseSolution (some ("x".toList))).thoughts →
      "x".toList ≠ ([] : Str)) := by
  obtain ⟨h1, h2, h3⟩ := parseSolution_fields (some ("x".toList))
  exact ⟨h1, h2, fun hm => h3 _ hm⟩

/-! ### Lemmas about provider dispatch -/

theorem unsupportedMsg_ne_abort (p : Str) :
    unsupportedMsg p ≠ "Request aborted".toList := by
  intro h
  have h0 : (unsupportedMsg p).head? = some 'U' := rfl
  rw [h] at h0
  exact absurd h0 (by decide)

theorem unsupportedMsg_not_empty (p : Str) : (unsupportedMsg p).isEmpty = false := rfl

theorem isAbortErr_unsupported (p : Str) :
    isAbortErr (mkErr (unsupportedMsg p)) = false := by
  have hdef : isAbortErr (mkErr (unsupportedMsg p)) =
      (decide (unsupportedMsg p = "Request aborted".toList) ||
       decide (("Error".toList : Str) = "AbortError".toList)) := rfl
  rw [hdef, decide_eq_false (unsupportedMsg_ne_abort p)]
  rfl

theorem msgOr_unsupported (p alt : Str) : msgOr (unsupportedMsg p) alt = unsupportedMsg p := by
  unfold msgOr
  rw [unsupportedMsg_not_empty, if_neg Bool.false_ne_true]

theorem handleGenErr_unsupported (st : PState) (p : Str) (pre : List Ev) :
    (handleGenErr st (mkErr (unsupportedMsg p)) pre).1 =
      HRes.err (unsupportedMsg p) := by
  unfold handleGenErr
  rw [isAbortErr_unsupported p, if_neg Bool.false_ne_true]
  rw [show (((mkErr (unsupportedMsg p)).code = some ("ETIMEDOUT".toList)) ||
      ((mkErr (unsupportedMsg p)).respStatus = some 504)) = false from rfl,
    if_neg Bool.false_ne_true]
  rw [show optContains (mkErr (unsupportedMsg p)).respDataError
      ("Please close this window and re-enter a valid Open AI API key.".toList) = false
      from rfl, if_neg Bool.false_ne_true]
  simp only [mkErr]
  rw [msgOr_unsupported]

theorem handleDebugErr_unsupported (st : PState) (p : Str) (pre : List Ev)
    (hto : containsLit (toLowerStr (unsupportedMsg p)) ("timeout".toList) = false)
    (hkv : containsLit (unsupportedMsg p) ("API key not valid".toList) = false) :
    (handleDebugErr st (mkErr (unsupportedMsg p)) pre).1 =
      HRes.err (unsupportedMsg p) := by
  unfold handleDebugErr
  rw [isAbortErr_unsupported p, if_neg Bool.false_ne_true]
  rw [show ((mkErr (unsupportedMsg p)).code = some ("ETIMEDOUT".toList) : Bool) = false
      from rfl]
  rw [show toLowerStr (mkErr (unsupportedMsg p)).message = toLowerStr (unsupportedMsg p)
      from rfl, hto, if_neg (by simp)]
  rw [show optContains (mkErr (unsupportedMsg p)).respDataError
      ("Please close this window and re-enter a valid Open AI API key.".toList) = false
      from rfl, if_neg Bool.false_ne_true]
  rw [show (mkErr (unsupportedMsg p)).message = unsupportedMsg p from rfl, hkv,
    if_neg Bool.false_ne_true]

theorem handleDebugErr_timeout_string (st : PState) (p : Str) (pre : List Ev)
    (hto : containsLit (toLowerStr (unsupportedMsg p)) ("timeout".toList) = true) :
    (handleDebugErr st (mkErr (unsupportedMsg p)) pre).1 =
      HRes.err ("Debug request timed out. Please try again.".toList) := by
  unfold handleDebugErr
  rw [isAbortErr_unsupported p, if_neg Bool.false_ne_true]
  rw [show ((mkErr (unsupportedMsg p)).code = some ("ETIMEDOUT".toList) : Bool) = false
      from rfl]
  rw [show toLowerStr (mkErr (unsupportedMsg p)).message = toLowerStr (unsupportedMsg p)
      from rfl, hto, if_pos (by simp)]

theorem processScreenshotsHelper_call (st : PState) (env : Env) (sdk : Sdk)
    (hk : env.apiKey ≠ []) (hs : sdkOf (effProvider env) = some sdk) :
    Ev.sdkCall sdk Purpose.extract ∈ (processScreenshotsHelper st env).2.2 := by
  unfold processScreenshotsHelper
  rw [neNil_isEmpty hk, if_neg Bool.false_ne_true]
  simp only [hs]
  unfold extractFinish
  repeat' split
  all_goals simp

theorem generateSolutionsHelper_call (st : PState) (env : Env) (sdk : Sdk)
    (hk : env.apiKey ≠ []) (hp : st.problemInfo.isSome)
    (hs : sdkOf (effProvider env) = some sdk) :
    Ev.sdkCall sdk Purpose.solve ∈ (generateSolutionsHelper st env).2.2 := by
  unfold generateSolutionsHelper
  rw [neNil_isEmpty hk, if_neg Bool.false_ne_true]
  rw [show st.problemInfo.isNone = false by
    rcases hh : st.problemInfo with _ | v
    · rw [hh] at hp; cases hp
    · rfl]
  rw [if_neg Bool.false_ne_true]
  simp only [hs]
  unfold handleGenErr
  repeat' split
  all_goals simp

theorem processExtraScreenshotsHelper_call (st : PState) (env : Env) (sdk : Sdk)
    (hk : env.apiKey ≠ []) (hp : st.problemInfo.isSome)
    (hs : sdkOf (effProvider env) = some sdk) :
    Ev.sdkCall sdk Purpose.debug ∈ (processExtraScreenshotsHelper st env).2.2 := by
  unfold processExtraScreenshotsHelper
  rw [show st.problemInfo.isNone = false by
    rcases hh : st.problemInfo with _ | v
    · rw [hh] at hp; cases hp
    · rfl]
  rw [if_neg Bool.false_ne_true]
  rw [neNil_isEmpty hk, if_neg Bool.false_ne_true]
  simp only [hs]
  unfold handleDebugErr
  repeat' split
  all_goals simp

theorem processScreenshotsHelper_unsupported (st : PState) (env : Env)
    (hk : env.apiKey ≠ []) (hs : sdkOf (effProvider env) = none) :
    (processScreenshotsHelper st env).1 =
      HRes.err (unsupportedMsg (effProvider env)) := by
  unfold processScreenshotsHelper
  rw [neNil_isEmpty hk, if_neg Bool.false_ne_true]
  simp only [hs]

theorem generateSolutionsHelper_unsupported (st : PState) (env : Env)
    (hk : env.apiKey ≠ []) (hp : st.problemInfo.isSome)
    (hs : sdkOf (effProvider env) = none) :
    (generateSolutionsHelper st env).1 =
      HRes.err (unsupportedMsg (effProvider env)) := by
  unfold generateSolutionsHelper
  rw [neNil_isEmpty hk, if_neg Bool.false_ne_true]
  rw [show st.problemInfo.isNone = false by
    rcases hh : st.problemInfo with _ | v
    · rw [hh] at hp; cases hp
    · rfl]
  rw [if_neg Bool.false_ne_true]
  simp only [hs]
  exact handleGenErr_unsupported st _ []

theorem processExtraScreenshotsHelper_unsupported (st : PState) (env : Env)
    (hk : env.apiKey ≠ []) (hp : st.problemInfo.isSome)
    (hs : sdkOf (effProvider env) = none)
    (hto : containsLit (toLowerStr (unsupportedMsg (effProvider env)))
      ("timeout".toList) = false)
    (hkv : containsLit (unsupportedMsg (effProvider env))
      ("API key not valid".toList) = false) :
    (processExtraScreenshotsHelper st env).1 =
      HRes.err (unsupportedMsg (effProvider env)) := by
  unfold processExtraScreenshotsHelper
  rw [show st.problemInfo.isNone = false by
    rcases hh : st.problemInfo with _ | v
    · rw [hh] at hp; cases hp
    · rfl]
  rw [if_neg Bool.false_ne_true]
  rw [neNil_isEmpty hk, if_neg Bool.false_ne_true]
  simp only [hs]
  exact handleDebugErr_unsupported st _ [] hto hkv

theorem processExtraScreenshotsHelper_timeout_string (st : PState) (env : Env)
    (hk : env.apiKey ≠ []) (hp : st.problemInfo.isSome)
    (hs : sdkOf (effProvider env) = none)
    (hto : containsLit (toLowerStr (unsupportedMsg (effProvider env)))
      ("timeout".toList) = true) :
    (processExtraScreenshotsHelper st env).1 =
      HRes.err ("Debug request timed out. Please try again.".toList) := by
  unfold processExtraScreenshotsHelper
  rw [show st.problemInfo.isNone = false by
    rcases hh : st.problemInfo with _ | v
    · rw [hh] at hp; cases hp
    · rfl]
  rw [if_neg Bool.false_ne_true]
  rw [neNil_isEmpty hk, if_neg Bool.false_ne_true]
  simp only [hs]
  exact handleDebugErr_timeout_string st _ [] hto

/-- C7 (amended): the provider is `process.env.API_PROVIDER` with default
`openai`; `openai` routes every helper call to the OpenAI SDK and `gemini` to
the Gemini SDK; any other value makes `processScreenshotsHelper` and
`generateSolutionsHelper` fail with `Unsupported API provider: <provider>`,
and `processExtraScreenshotsHelper` does too unless the resulting message
contains `timeout` case-insensitively (then its catch block takes the timeout
path and it fails with `Debug request timed out. Please try again.`) or
contains `API key not valid`; the `set-api-config` handler stores provider
`gemini` exactly when the model id starts with `gemini`, else `openai`. -/
theorem provider_dispatch (st : PState) (env : Env) :
    (env.apiProvider = [] → effProvider env = "openai".toList) ∧
    (effProvider env = "openai".toList → sdkOf (effProvider env) = some Sdk.openai) ∧
    (effProvider env = "gemini".toList → sdkOf (effProvider env) = some Sdk.gemini) ∧
    (∀ sdk, env.apiKey ≠ [] → sdkOf (effProvider env) = some sdk →
       Ev.sdkCall sdk Purpose.extract ∈ (processScreenshotsHelper st env).2.2 ∧
       (st.problemInfo.isSome →
         Ev.sdkCall sdk Purpose.solve ∈ (generateSolutionsHelper st env).2.2 ∧
         Ev.sdkCall sdk Purpose.debug ∈ (processExtraScreenshotsHelper st env).2.2)) ∧
    (env.apiKey ≠ [] → sdkOf (effProvider env) = none →
       (processScreenshotsHelper st env).1 =
         HRes.err (unsupportedMsg (effProvider env)) ∧
       (st.problemInfo.isSome →
         (generateSolutionsHelper st env).1 =
           HRes.err (unsupportedMsg (effProvider env)) ∧
         (containsLit (toLowerStr (unsupportedMsg (effProvider env)))
             ("timeout".toList) = false →
           containsLit (unsupportedMsg (effProvider env))
             ("API key not valid".toList) = false →
           (processExtraScreenshotsHelper st env).1 =
             HRes.err (unsupportedMsg (effProvider env))) ∧
         (containsLit (toLowerStr (unsupportedMsg (effProvider env)))
             ("timeout".toList) = true →
           (processExtraScreenshotsHelper st env).1 =
             HRes.err ("Debug request timed out. Please try again.".toList)))) ∧
    (∀ (file : Option Config) (key model : Str),
       key ≠ [] → trimStr key ≠ [] → model ≠ [] →
       (setApiConfigHandler file key model).2 =
         some (if litStarts ("gemini".toList) model
           then "gemini".toList else "openai".toList)) := by
  refine ⟨?_, ?_, ?_, ?_, ?_, ?_⟩
  · intro h
    unfold effProvider
    rw [h]
    rfl
  · intro h
    rw [h]
    decide
  · intro h
    rw [h]
    decide
  · intro sdk hk hs
    refine ⟨processScreenshotsHelper_call st env sdk hk hs, fun hp =>
      ⟨generateSolutionsHelper_call st env sdk hk hp hs,
       processExtraScreenshotsHelper_call st env sdk hk hp hs⟩⟩
  · intro hk hs
    refine ⟨processScreenshotsHelper_unsupported st env hk hs, fun hp =>
      ⟨generateSolutionsHelper_unsupported st env hk hp hs,
       fun hto hkv =>
         processExtraScreenshotsHelper_unsupported st env hk hp hs hto hkv,
       fun hto =>
         processExtraScreenshotsHelper_timeout_string st env hk hp hs hto⟩⟩
  · intro file key model hkey htrim hmodel
    unfold setApiConfigHandler
    rw [if_neg (by simp [neNil_isEmpty hkey, neNil_isEmpty htrim])]
    rw [if_neg (by simp [neNil_isEmpty hmodel])]

/-- Counterexample for C7: with `API_PROVIDER=timeout` (not a supported
provider), the debug helper does not fail with
`Unsupported API provider: timeout` — its catch block sniffs the word
`timeout` in the message and reports a request timeout instead (clearing the
queues and resetting the view along the way). -/
theorem provider_timeout_string_counterexample :
    (processExtraScreenshotsHelper sampleDebugState envTimeoutProv).1 =
      HRes.err ("Debug request timed out. Please try again.".toList) ∧
    HRes.err ("Debug request timed out. Please try again.".toList) ≠
      HRes.err (unsupportedMsg ("timeout".toList)) := by
  decide

/-- Witness for C7: dispatch evaluated on the sample states. -/
theorem provider_dispatch_w :
    Ev.sdkCall Sdk.openai Purpose.extract ∈
      (processScreenshotsHelper sampleQueueState sampleEnv).2.2 ∧
    (processScreenshotsHelper sampleQueueState envNoProvider).1 =
      HRes.err (unsupportedMsg ("other".toList)) ∧
    (setApiConfigHandler none ("k".toList) ("gemini-pro".toList)).2 =
      some ("gemini".toList) := by
  have h1 := provider_dispatch sampleQueueState sampleEnv
  have h2 := provider_dispatch sampleQueueState envNoProvider
  refine ⟨?_, ?_, ?_⟩
  · exact (h1.2.2.2.1 Sdk.openai (by decide) (by decide)).1
  · exact (h2.2.2.2.2.1 (by decide) (by decide)).1.trans (by decide)
  · exact (h1.2.2.2.2.2 none ("k".toList) ("gemini-pro".toList)
      (by decide) (by decide) (by decide)).trans (by decide)

/-! ### The happy path of the queue pipeline -/

theorem problemInfo_isNone_false {st : PState} (hp : st.problemInfo.isSome) :
    st.problemInfo.isNone = false := by
  rcases hh : st.problemInfo with _ | v
  · rw [hh] at hp
    cases hp
  · rfl

theorem generateSolutionsHelper_ok (st : PState) (env : Env) (sdk : Sdk) (u : Str)
    (hk : env.apiKey ≠ []) (hp : st.problemInfo.isSome)
    (hs : sdkOf (effProvider env) = some sdk)
    (hu : env.solveOutcome = .ok u) :
    generateSolutionsHelper st env =
      (.ok (parseSolution (some u)), st,
        [Ev.sdkCall sdk Purpose.solve, Ev.parseCall u]) := by
  unfold generateSolutionsHelper
  rw [neNil_isEmpty hk, if_neg Bool.false_ne_true]
  rw [problemInfo_isNone_false hp, if_neg Bool.false_ne_true]
  simp only [hs, hu]
  rfl

theorem processScreenshotsHelper_ok (st : PState) (env : Env) (sdk : Sdk)
    (t u : Str) (hk : env.apiKey ≠ []) (hs : sdkOf (effProvider env) = some sdk)
    (he : env.extractOutcome = .ok t) (ht : t ≠ [])
    (hw : st.mainWindow = true) (hu : env.solveOutcome = .ok u) :
    processScreenshotsHelper st env =
      (.ok (parseSolution (some u)),
       { st with problemInfo := some t, extraScreenshotQueue := [] },
       [Ev.sdkCall sdk Purpose.extract, Ev.stSetProblemInfo (some t),
        Ev.problemExtracted t, Ev.sdkCall sdk Purpose.solve, Ev.parseCall u,
        Ev.stClearExtraQueue, Ev.solutionSuccess (parseSolution (some u))]) := by
  have hg := generateSolutionsHelper_ok { st with problemInfo := some t } env sdk u
    hk rfl hs hu
  unfold processScreenshotsHelper
  rw [neNil_isEmpty hk, if_neg Bool.false_ne_true]
  simp only [hs, he]
  rw [neNil_isEmpty ht]
  rw [if_neg Bool.false_ne_true, if_pos hw]
  unfold extractFinish
  rw [hg]
  rfl

theorem queueBranch_ok (S : PState) (env : Env) (sdk : Sdk) (t u : Str)
    (hq : S.screenshotQueue ≠ []) (hk : env.apiKey ≠ [])
    (hs : sdkOf (effProvider env) = some sdk)
    (he : env.extractOutcome = .ok t) (ht : t ≠ [])
    (hw : S.mainWindow = true) (hu : env.solveOutcome = .ok u) :
    queueBranch S env =
      ({ S with problemInfo := some t, extraScreenshotQueue := [],
                view := View.solutions, ctrlMain := false },
       [Ev.initialStart, Ev.ctrlCreated false] ++
         S.screenshotQueue.map (fun p => Ev.readFile p (env.fileData p)) ++
         [Ev.sdkCall sdk Purpose.extract, Ev.stSetProblemInfo (some t),
          Ev.problemExtracted t, Ev.sdkCall sdk Purpose.solve, Ev.parseCall u,
          Ev.stClearExtraQueue, Ev.solutionSuccess (parseSolution (some u)),
          Ev.solutionSuccess (parseSolution (some u)),
          Ev.stSetView View.solutions, Ev.ctrlCleared false],
       RunOutcome.mainDone (HRes.ok (parseSolution (some u)))) := by
  have hh := processScreenshotsHelper_ok { S with ctrlMain := true } env sdk t u
    hk hs he ht hw hu
  unfold queueBranch
  rw [neNil_isEmpty hq, if_neg Bool.false_ne_true, hh]
  unfold queueFinish
  simp [List.append_assoc]

/-- C1: a run of `processScreenshots` started in the queue view with a
non-empty screenshot queue performs the pipeline steps in this order: each
queued file is read and encoded, the configured provider's API is called to
extract the problem, the text is stored via `setProblemInfo` and
PROBLEM_EXTRACTED is sent, the API is called a second time for the solution,
the response is parsed by `parseSolution`, and only then SOLUTION_SUCCESS is
sent (twice: once by the helper, once by the caller) and the view is set to
`solutions`. -/
theorem processScreenshots_queue_pipeline_order (st : PState) (env : Env)
    (sdk : Sdk) (t u : Str)
    (hb : st.isCurrentlyProcessing = false)
    (hw : st.mainWindow = true)
    (hv : st.view = View.queue)
    (hq : st.screenshotQueue ≠ [])
    (hk : env.apiKey ≠ [])
    (hs : sdkOf (effProvider env) = some sdk)
    (he : env.extractOutcome = .ok t)
    (ht : t ≠ [])
    (hu : env.solveOutcome = .ok u) :
    processScreenshots st env =
      ({ st with problemInfo := some t, extraScreenshotQueue := [],
                 view := View.solutions, ctrlMain := false,
                 isCurrentlyProcessing := false },
       [Ev.initialStart, Ev.ctrlCreated false] ++
         st.screenshotQueue.map (fun p => Ev.readFile p (env.fileData p)) ++
         [Ev.sdkCall sdk Purpose.extract, Ev.stSetProblemInfo (some t),
          Ev.problemExtracted t, Ev.sdkCall sdk Purpose.solve, Ev.parseCall u,
          Ev.stClearExtraQueue, Ev.solutionSuccess (parseSolution (some u)),
          Ev.solutionSuccess (parseSolution (some u)),
          Ev.stSetView View.solutions, Ev.ctrlCleared false],
       RunOutcome.mainDone (HRes.ok (parseSolution (some u)))) := by
  have hqb := queueBranch_ok { st with isCurrentlyProcessing := true } env sdk t u
    hq hk hs he ht hw hu
  unfold processScreenshots
  rw [if_neg (show ¬(st.isCurrentlyProcessing = true) by rw [hb]; exact Bool.false_ne_true)]
  rw [if_neg (show ¬((!st.mainWindow) = true) by rw [hw]; exact (by decide))]
  rw [if_pos hv, hqb]
  rfl

/-- Witness for C1: the pipeline evaluated on the sample state. -/
theorem processScreenshots_queue_pipeline_order_w :
    (processScreenshots sampleQueueState sampleEnv).2.2 =
      RunOutcome.mainDone (HRes.ok (parseSolution (some sampleSolText))) ∧
    (processScreenshots sampleQueueState sampleEnv).1.view = View.solutions := by
  have h := processScreenshots_queue_pipeline_order sampleQueueState sampleEnv
    Sdk.openai ("problem text".toList) sampleSolText (by decide) (by decide)
    (by decide) (by decide) (by decide) (by decide) (by decide) (by decide)
    (by decide)
  rw [h]
  exact ⟨rfl, rfl⟩

/-! ### Failure handling of `processScreenshots` -/

theorem finishRun_snd (r : PState × List Ev × RunOutcome) :
    (finishRun r).2 = r.2 := by
  rcases r with ⟨st, evs, out⟩
  rfl

theorem finishRun_view (r : PState × List Ev × RunOutcome) :
    (finishRun r).1.view = r.1.view := by
  rcases r with ⟨st, evs, out⟩
  rfl

theorem debugBranch_outcome (st : PState) (env : Env) :
    (debugBranch st env).2.2 = RunOutcome.noShots ∨
    ∃ r, (debugBranch st env).2.2 = RunOutcome.extraDone r := by
  unfold debugBranch debugFinish
  repeat' split
  all_goals first
    | exact Or.inl rfl
    | exact Or.inr ⟨_, rfl⟩

theorem queueBranch_outcome (st : PState) (env : Env) :
    (queueBranch st env).2.2 = RunOutcome.noShots ∨
    ∃ r, (queueBranch st env).2.2 = RunOutcome.mainDone r := by
  unfold queueBranch queueFinish
  repeat' split
  all_goals first
    | exact Or.inl rfl
    | exact Or.inr ⟨_, rfl⟩

theorem queueBranch_err (st : PState) (env : Env) (m : Str)
    (h : (queueBranch st env).2.2 = RunOutcome.mainDone (HRes.err m)) :
    Ev.solutionError (if containsLit m ("OpenAI API key not found".toList)
        then longKeyMsg else m) ∈ (queueBranch st env).2.1 ∧
    (queueBranch st env).1.view = View.queue := by
  by_cases hq : st.screenshotQueue.isEmpty
  · unfold queueBranch at h
    rw [if_pos hq] at h
    simp at h
  · unfold queueBranch at h ⊢
    rw [if_neg hq] at h ⊢
    rcases hres : processScreenshotsHelper { st with ctrlMain := true } env
      with ⟨r, st1, hevs⟩
    rw [hres] at h
    rcases r with sol | m'
    · unfold queueFinish at h
      simp at h
    · unfold queueFinish at h ⊢
      simp at h
      subst h
      constructor
      · simp
      · rfl

theorem debugBranch_err (st : PState) (env : Env) (m : Str)
    (h : (debugBranch st env).2.2 = RunOutcome.extraDone (HRes.err m)) :
    Ev.debugError m ∈ (debugBranch st env).2.1 := by
  by_cases hq : st.extraScreenshotQueue.isEmpty
  · unfold debugBranch at h
    rw [if_pos hq] at h
    simp at h
  · unfold debugBranch at h ⊢
    rw [if_neg hq] at h ⊢
    rcases hres : processExtraScreenshotsHelper { st with ctrlExtra := true } env
      with ⟨r, st1, hevs⟩
    rw [hres] at h
    rcases r with sol | m'
    · unfold debugFinish at h
      simp at h
    · unfold debugFinish at h ⊢
      simp at h
      subst h
      simp

theorem handleDebugErr_timeout_view (st : PState) (e : ApiError) (pre : List Ev)
    (hab : isAbortErr e = false)
    (hto : (e.code = some ("ETIMEDOUT".toList) ||
      containsLit (toLowerStr e.message) ("timeout".toList)) = true) :
    (handleDebugErr st e pre).2.1.view = View.queue := by
  unfold handleDebugErr
  rw [hab, if_neg Bool.false_ne_true, hto, if_pos rfl]

theorem processExtraScreenshotsHelper_timeout_view (st : PState) (env : Env)
    (sdk : Sdk) (e : ApiError)
    (hp : st.problemInfo.isSome) (hk : env.apiKey ≠ [])
    (hs : sdkOf (effProvider env) = some sdk)
    (hd : env.debugOutcome = .fail e)
    (hab : isAbortErr e = false)
    (hto : (e.code = some ("ETIMEDOUT".toList) ||
      containsLit (toLowerStr e.message) ("timeout".toList)) = true) :
    (processExtraScreenshotsHelper st env).2.1.view = View.queue := by
  unfold processExtraScreenshotsHelper
  rw [problemInfo_isNone_false hp, if_neg Bool.false_ne_true]
  rw [neNil_isEmpty hk, if_neg Bool.false_ne_true]
  simp only [hs, hd]
  exact handleDebugErr_timeout_view _ e _ hab hto

theorem debugBranch_timeout_view (S : PState) (env : Env) (sdk : Sdk)
    (e : ApiError) (hq : S.extraScreenshotQueue ≠ []) (hp : S.problemInfo.isSome)
    (hk : env.apiKey ≠ []) (hs : sdkOf (effProvider env) = some sdk)
    (hd : env.debugOutcome = .fail e) (hab : isAbortErr e = false)
    (hto : (e.code = some ("ETIMEDOUT".toList) ||
      containsLit (toLowerStr e.message) ("timeout".toList)) = true) :
    (debugBranch S env).1.view = View.queue := by
  unfold debugBranch
  rw [if_neg (neNil_isEmpty hq ▸ Bool.false_ne_true)]
  rcases hres : processExtraScreenshotsHelper { S with ctrlExtra := true } env
    with ⟨r, st1, hevs⟩
  have hview := processExtraScreenshotsHelper_timeout_view
    { S with ctrlExtra := true } env sdk e hp hk hs hd hab hto
  rw [hres] at hview
  rcases r with sol | m' <;> unfold debugFinish <;> exact hview

/-- Counterexample for C2: in the debug (solutions-view) branch a failing run
(here: missing API key) sends DEBUG_ERROR but leaves the view at `solutions`
instead of resetting it to `queue` as the claim states for both branches. -/
theorem debugError_leaves_solutions_view :
    Ev.debugError keyMissingMsg ∈
      (processScreenshots sampleDebugState envNoKey).2.1 ∧
    (processScreenshots sampleDebugState envNoKey).1.view = View.solutions ∧
    View.solutions ≠ View.queue := by
  decide

/-- C2 (amended): in the initial-solution (queue-view) branch every failing
path sends a solution-error event and resets the view to `queue`; in the
debug branch every failing path sends DEBUG_ERROR but only the timeout path
resets the view to `queue` — other debug failures leave the view unchanged
(witnessed by `debugError_leaves_solutions_view`). -/
theorem failure_error_event_and_view (st : PState) (env : Env) :
    (∀ m, (processScreenshots st env).2.2 = RunOutcome.mainDone (HRes.err m) →
       Ev.solutionError (if containsLit m ("OpenAI API key not found".toList)
           then longKeyMsg else m) ∈ (processScreenshots st env).2.1 ∧
       (processScreenshots st env).1.view = View.queue) ∧
    (∀ m, (processScreenshots st env).2.2 = RunOutcome.extraDone (HRes.err m) →
       Ev.debugError m ∈ (processScreenshots st env).2.1) ∧
    (∀ sdk e, st.isCurrentlyProcessing = false → st.mainWindow = true →
       st.view ≠ View.queue → st.extraScreenshotQueue ≠ [] →
       st.problemInfo.isSome → env.apiKey ≠ [] →
       sdkOf (effProvider env) = some sdk →
       env.debugOutcome = .fail e → isAbortErr e = false →
       (e.code = some ("ETIMEDOUT".toList) ||
         containsLit (toLowerStr e.message) ("timeout".toList)) = true →
       (processScreenshots st env).1.view = View.queue) := by
  refine ⟨?_, ?_, ?_⟩
  · intro m h
    unfold processScreenshots at h ⊢
    by_cases hb : st.isCurrentlyProcessing
    · rw [if_pos hb] at h
      simp at h
    · rw [if_neg hb] at h ⊢
      by_cases hw : (!st.mainWindow) = true
      · rw [if_pos hw] at h
        simp at h
      · rw [if_neg hw] at h ⊢
        by_cases hv : st.view = View.queue
        · rw [if_pos hv] at h ⊢
          rw [finishRun_snd] at h
          rw [finishRun_snd, finishRun_view]
          exact queueBranch_err _ env m h
        · rw [if_neg hv] at h
          rw [finishRun_snd] at h
          rcases debugBranch_outcome { st with isCurrentlyProcessing := true } env
            with ho | ⟨r, ho⟩ <;> rw [ho] at h <;> simp at h
  · intro m h
    unfold processScreenshots at h ⊢
    by_cases hb : st.isCurrentlyProcessing
    · rw [if_pos hb] at h
      simp at h
    · rw [if_neg hb] at h ⊢
      by_cases hw : (!st.mainWindow) = true
      · rw [if_pos hw] at h
        simp at h
      · rw [if_neg hw] at h ⊢
        by_cases hv : st.view = View.queue
        · rw [if_pos hv] at h
          rw [finishRun_snd] at h
          rcases queueBranch_outcome { st with isCurrentlyProcessing := true } env
            with ho | ⟨r, ho⟩ <;> rw [ho] at h <;> simp at h
        · rw [if_neg hv] at h ⊢
          rw [finishRun_snd] at h
          rw [finishRun_snd]
          exact debugBranch_err _ env m h
  · intro sdk e hb hw hv hq hp hk hs hd hab hto
    unfold processScreenshots
    rw [if_neg (show ¬(st.isCurrentlyProcessing = true) by rw [hb]; exact Bool.false_ne_true)]
    rw [if_neg (show ¬((!st.mainWindow) = true) by rw [hw]; exact (by decide))]
    rw [if_neg hv, finishRun_view]
    exact debugBranch_timeout_view { st with isCurrentlyProcessing := true } env sdk e
      hq hp hk hs hd hab hto

/-- Witness for C2: the amended failure contract evaluated on a queue-view
run with a missing API key and on a debug-view run with a timeout error. -/
theorem failure_error_event_and_view_w :
    (Ev.solutionError keyMissingMsg ∈
       (processScreenshots sampleQueueState envNoKey).2.1 ∧
     (processScreenshots sampleQueueState envNoKey).1.view = View.queue) ∧
    (processScreenshots sampleDebugState envDebugTimeout).1.view = View.queue := by
  constructor
  · have h := (failure_error_event_and_view sampleQueueState envNoKey).1
      keyMissingMsg (by decide)
    exact ⟨by simpa using h.1, h.2⟩
  · exact (failure_error_event_and_view sampleDebugState envDebugTimeout).2.2
      Sdk.openai (mkErr ("socket timeout".toList)) (by decide) (by decide)
      (by decide) (by decide) (by decide) (by decide) (by decide) (by decide)
      (by decide) (by decide)

/-! ### Theorems about the busy-flag guard -/

/-- C9: the busy-flag guard of `processScreenshots` skips a duplicate call
with no side effects, but the early return taken when `getMainWindow()` is
null happens after the flag is set and outside the `try`/`finally` that
resets it, so that run completes with `isCurrentlyProcessing` still `true`
and every later call is skipped as busy — the guard sticks, contradicting
the `finally` comment `Ensure flag is reset`. -/
theorem processScreenshots_missing_window_flag_stuck :
    (processScreenshots sampleNoWindowState sampleEnv).2.2 = RunOutcome.noWindow ∧
    (processScreenshots sampleNoWindowState sampleEnv).1.isCurrentlyProcessing = true ∧
    (processScreenshots sampleNoWindowState sampleEnv).2.1 = [] ∧
    processScreenshots (processScreenshots sampleNoWindowState sampleEnv).1 sampleEnv =
      ((processScreenshots sampleNoWindowState sampleEnv).1, [], RunOutcome.busy) ∧
    processScreenshots { sampleQueueState with isCurrentlyProcessing := true } sampleEnv =
      ({ sampleQueueState with isCurrentlyProcessing := true }, [], RunOutcome.busy) := by
  decide

/-! ### Theorems about the window machine -/

/-- C4: the overlay window is always click-through with event forwarding:
`setIgnoreMouseEvents(true, { forward: true })` holds after window creation,
after each of the `did-start-loading`, `did-finish-load`, `show` and
`ready-to-show` listeners, after `hideMainWindow` and `showMainWindow`, and
at the end of the `toggle-window` IPC handler. -/
theorem overlay_clickThrough_invariant :
    (∀ st : MState, st.mainWindow = none → clickThrough (createWindow st) = true) ∧
    (∀ (st : MState) (w : Win), st.mainWindow = some w →
       clickThrough (didStartLoadingHandler st) = true) ∧
    (∀ (st : MState) (w : Win), st.mainWindow = some w →
       clickThrough (didFinishLoadHandler st) = true) ∧
    (∀ (st : MState) (w : Win), st.mainWindow = some w →
       clickThrough (showHandler st) = true) ∧
    (∀ (st : MState) (w : Win), st.mainWindow = some w →
       clickThrough (readyToShowHandler st) = true) ∧
    (∀ (st st' : MState) (w : Win), st.mainWindow = some w → w.destroyed = false →
       hideMainWindow st = some st' → clickThrough st' = true) ∧
    (∀ (st st' : MState) (w : Win), st.mainWindow = some w → w.destroyed = false →
       showMainWindow st = some st' → clickThrough st' = true) ∧
    (∀ (st : MState) (w : Win), st.mainWindow = some w → w.destroyed = false →
       clickThrough (toggleWindowHandler st).1 = true) := by
  refine ⟨?_, ?_, ?_, ?_, ?_, ?_, ?_, ?_⟩
  · intro st h
    simp [createWindow, h, clickThrough]
  · intro st w h
    simp [didStartLoadingHandler, setIgnoreMouseEvents, h, clickThrough]
  · intro st w h
    simp [didFinishLoadHandler, setIgnoreMouseEvents, h, clickThrough]
  · intro st w h
    simp [showHandler, setIgnoreMouseEvents, h, clickThrough]
  · intro st w h
    simp [readyToShowHandler, setIgnoreMouseEvents, h, clickThrough]
  · intro st st' w h hd hh
    obtain ⟨mw, vis, wp, ws⟩ := st
    obtain ⟨b, op, sh, dd, im, fm⟩ := w
    obtain rfl : mw = some (Win.mk b op sh dd im fm) := h
    obtain rfl : dd = false := hd
    rw [show hideMainWindow (MState.mk (some (Win.mk b op sh false im fm)) vis wp ws) =
      some (MState.mk (some (Win.mk b 0 false false true true)) false
        (some (b.x, b.y)) (some (b.width, b.height))) from rfl] at hh
    injection hh with hh
    subst hh
    rfl
  · intro st st' w h hd hh
    obtain ⟨mw, vis, wp, ws⟩ := st
    obtain ⟨b, op, sh, dd, im, fm⟩ := w
    obtain rfl : mw = some (Win.mk b op sh dd im fm) := h
    obtain rfl : dd = false := hd
    rcases wp with _ | ⟨px, py⟩ <;> rcases ws with _ | ⟨sw, sh'⟩ <;>
      [skip; skip; skip; skip] <;>
    · simp only [showMainWindow] at hh
      injection hh with hh
      subst hh
      rfl
  · intro st w h hd
    obtain ⟨mw, vis, wp, ws⟩ := st
    obtain ⟨b, op, sh, dd, im, fm⟩ := w
    obtain rfl : mw = some (Win.mk b op sh dd im fm) := h
    obtain rfl : dd = false := hd
    cases vis with
    | true => rfl
    | false =>
      rcases wp with _ | ⟨px, py⟩ <;> rcases ws with _ | ⟨sw, sh'⟩ <;> rfl

/-- Witness for C4: the invariant evaluated on the freshly created window. -/
theorem overlay_clickThrough_invariant_w :
    clickThrough (createWindow (MState.mk none false none none)) = true ∧
    clickThrough (didFinishLoadHandler sampleMState) = true ∧
    clickThrough (toggleWindowHandler sampleMState).1 = true := by
  refine ⟨?_, ?_, ?_⟩
  · exact overlay_clickThrough_invariant.1 _ (by decide)
  · exact overlay_clickThrough_invariant.2.2.1 _ sampleWin (by decide)
  · exact overlay_clickThrough_invariant.2.2.2.2.2.2.2 _ sampleWin
      (by decide) (by decide)

/-- C8: the window-visibility machine alternates: from a visible window a
toggle hides it (saving its bounds, opacity 0, `isWindowVisible := false`),
from a hidden one it shows it (restoring the saved bounds, opacity 1,
`isWindowVisible := true`), and two successive toggles restore
`isWindowVisible` and the stored bounds, assuming the stored bounds track
the window's bounds as the `move`/`resize` listeners maintain. -/
theorem toggleMainWindow_alternation (st : MState) (w : Win)
    (hw : st.mainWindow = some w) (hd : w.destroyed = false)
    (hp : st.windowPosition = some (w.bounds.x, w.bounds.y))
    (hs : st.windowSize = some (w.bounds.width, w.bounds.height)) :
    ∃ st1, toggleMainWindow st = some st1 ∧
      (st.isWindowVisible = true →
        st1.isWindowVisible = false ∧
        st1.windowPosition = some (w.bounds.x, w.bounds.y) ∧
        st1.windowSize = some (w.bounds.width, w.bounds.height) ∧
        ∃ w1, st1.mainWindow = some w1 ∧ w1.opacity = 0 ∧ w1.shown = false) ∧
      (st.isWindowVisible = false →
        st1.isWindowVisible = true ∧
        ∃ w1, st1.mainWindow = some w1 ∧ w1.opacity = 1 ∧ w1.shown = true ∧
          w1.bounds = w.bounds) ∧
      ∃ st2, toggleMainWindow st1 = some st2 ∧
        st2.isWindowVisible = st.isWindowVisible ∧
        st2.windowPosition = st.windowPosition ∧
        st2.windowSize = st.windowSize := by
  obtain ⟨mw, vis, wp, ws⟩ := st
  obtain ⟨b, op, sh, dd, im, fm⟩ := w
  obtain rfl : mw = some (Win.mk b op sh dd im fm) := hw
  obtain rfl : dd = false := hd
  obtain rfl : wp = some (b.x, b.y) := hp
  obtain rfl : ws = some (b.width, b.height) := hs
  cases vis with
  | true =>
    refine ⟨_, rfl, ?_, ?_, ?_⟩
    · intro _
      exact ⟨rfl, rfl, rfl, _, rfl, rfl, rfl⟩
    · intro hc
      exact Bool.noConfusion hc
    · exact ⟨_, rfl, rfl, rfl, rfl⟩
  | false =>
    refine ⟨_, rfl, ?_, ?_, ?_⟩
    · intro hc
      exact Bool.noConfusion hc
    · intro _
      exact ⟨rfl, _, rfl, rfl, rfl, rfl⟩
    · exact ⟨_, rfl, rfl, rfl, rfl⟩

/-- Witness for C8: the double toggle evaluated on the sample window state. -/
theorem toggleMainWindow_alternation_w :
    ∃ st1, toggleMainWindow sampleMState = some st1 ∧
      st1.isWindowVisible = false ∧
      ∃ st2, toggleMainWindow st1 = some st2 ∧
        st2.isWindowVisible = true ∧
        st2.windowPosition = sampleMState.windowPosition := by
  obtain ⟨st1, h1, hvis, -, h2⟩ := toggleMainWindow_alternation sampleMState sampleWin
    (by decide) (by decide) (by decide) (by decide)
  obtain ⟨hv1, hp1, hs1, -⟩ := hvis (by decide)
  obtain ⟨st2, h21, h22, h23, h24⟩ := h2
  exact ⟨st1, h1, hv1, st2, h21, by rw [h22]; decide, by rw [h23]⟩

/-! ### The abort-controller protocol -/

theorem finishRun_ctrlMain (r : PState × List Ev × RunOutcome) :
    (finishRun r).1.ctrlMain = r.1.ctrlMain := by
  rcases r with ⟨st, evs, out⟩
  rfl

theorem finishRun_ctrlExtra (r : PState × List Ev × RunOutcome) :
    (finishRun r).1.ctrlExtra = r.1.ctrlExtra := by
  rcases r with ⟨st, evs, out⟩
  rfl

theorem handleGenErr_ctrlExtra (st : PState) (e : ApiError) (pre : List Ev)
    (he : st.ctrlExtra = false) :
    (handleGenErr st e pre).2.1.ctrlExtra = false := by
  have hc : (cancelOngoingRequests st).1.ctrlExtra = false := rfl
  unfold handleGenErr
  rcases hres : cancelOngoingRequests st with ⟨st1, cevs, b1, b2⟩
  rw [hres] at hc
  dsimp only
  repeat' split
  all_goals first | exact he | exact hc

theorem generateSolutionsHelper_ctrlExtra (st : PState) (env : Env)
    (he : st.ctrlExtra = false) :
    (generateSolutionsHelper st env).2.1.ctrlExtra = false := by
  unfold generateSolutionsHelper
  repeat' split
  all_goals first
    | exact handleGenErr_ctrlExtra _ _ _ he
    | exact he

theorem extractFinish_ctrlExtra (sdk : Sdk) (t : Str) (env : Env) (st1 : PState)
    (he : st1.ctrlExtra = false) :
    (extractFinish sdk t env st1).2.1.ctrlExtra = false := by
  have h := generateSolutionsHelper_ctrlExtra st1 env he
  unfold extractFinish
  rcases hres : generateSolutionsHelper st1 env with ⟨r2, st2, evs2⟩
  rw [hres] at h
  rcases r2 with sol | m <;> exact h

theorem processScreenshotsHelper_ctrlExtra (st : PState) (env : Env)
    (he : st.ctrlExtra = false) :
    (processScreenshotsHelper st env).2.1.ctrlExtra = false := by
  unfold processScreenshotsHelper
  repeat' split
  all_goals first
    | exact extractFinish_ctrlExtra _ _ _ _ he
    | exact he

theorem handleDebugErr_ctrlMain (st : PState) (e : ApiError) (pre : List Ev)
    (hm : st.ctrlMain = false) :
    (handleDebugErr st e pre).2.1.ctrlMain = false := by
  have hc : (cancelOngoingRequests st).1.ctrlMain = false := rfl
  unfold handleDebugErr
  rcases hres : cancelOngoingRequests st with ⟨st1, cevs, b1, b2⟩
  rw [hres] at hc
  dsimp only
  repeat' split
  all_goals first | exact hm | exact hc

theorem processExtraScreenshotsHelper_ctrlMain (st : PState) (env : Env)
    (hm : st.ctrlMain = false) :
    (processExtraScreenshotsHelper st env).2.1.ctrlMain = false := by
  unfold processExtraScreenshotsHelper
  repeat' split
  all_goals first
    | exact handleDebugErr_ctrlMain _ _ _ hm
    | exact hm

theorem queueFinish_ctrlMain (q : List Str) (env : Env)
    (res : HRes × PState × List Ev) :
    (queueFinish q env res).1.ctrlMain = false := by
  rcases res with ⟨r, st1, hevs⟩
  rcases r with sol | m <;> rfl

theorem queueFinish_ctrlExtra (q : List Str) (env : Env)
    (res : HRes × PState × List Ev) :
    (queueFinish q env res).1.ctrlExtra = res.2.1.ctrlExtra := by
  rcases res with ⟨r, st1, hevs⟩
  rcases r with sol | m <;> rfl

theorem debugFinish_ctrlExtra2 (q : List Str) (env : Env)
    (res : HRes × PState × List Ev) :
    (debugFinish q env res).1.ctrlExtra = false := by
  rcases res with ⟨r, st1, hevs⟩
  rcases r with sol | m <;> rfl

theorem debugFinish_ctrlMain (q : List Str) (env : Env)
    (res : HRes × PState × List Ev) :
    (debugFinish q env res).1.ctrlMain = res.2.1.ctrlMain := by
  rcases res with ⟨r, st1, hevs⟩
  rcases r with sol | m <;> rfl

theorem queueBranch_ctrl (S : PState) (env : Env)
    (hm : S.ctrlMain = false) (he : S.ctrlExtra = false) :
    (queueBranch S env).1.ctrlMain = false ∧
      (queueBranch S env).1.ctrlExtra = false := by
  unfold queueBranch
  split
  · exact ⟨hm, he⟩
  · refine ⟨queueFinish_ctrlMain _ _ _, ?_⟩
    rw [queueFinish_ctrlExtra]
    exact processScreenshotsHelper_ctrlExtra { S with ctrlMain := true } env he

theorem debugBranch_ctrl (S : PState) (env : Env)
    (hm : S.ctrlMain = false) (he : S.ctrlExtra = false) :
    (debugBranch S env).1.ctrlMain = false ∧
      (debugBranch S env).1.ctrlExtra = false := by
  unfold debugBranch
  split
  · exact ⟨hm, he⟩
  · refine ⟨?_, debugFinish_ctrlExtra2 _ _ _⟩
    rw [debugFinish_ctrlMain]
    exact processExtraScreenshotsHelper_ctrlMain { S with ctrlExtra := true } env hm

theorem processScreenshots_ctrl (st : PState) (env : Env)
    (hm : st.ctrlMain = false) (he : st.ctrlExtra = false) :
    (processScreenshots st env).1.ctrlMain = false ∧
      (processScreenshots st env).1.ctrlExtra = false := by
  unfold processScreenshots
  repeat' split
  · exact ⟨hm, he⟩
  · exact ⟨hm, he⟩
  · constructor
    · rw [finishRun_ctrlMain]
      exact (queueBranch_ctrl { st with isCurrentlyProcessing := true } env hm he).1
    · rw [finishRun_ctrlExtra]
      exact (queueBranch_ctrl { st with isCurrentlyProcessing := true } env hm he).2
  · constructor
    · rw [finishRun_ctrlMain]
      exact (debugBranch_ctrl { st with isCurrentlyProcessing := true } env hm he).1
    · rw [finishRun_ctrlExtra]
      exact (debugBranch_ctrl { st with isCurrentlyProcessing := true } env hm he).2

theorem cancelOngoingRequests_noCtrl (st : PState) (b : Bool) :
    Ev.ctrlCreated b ∉ (cancelOngoingRequests st).2.1 := by
  unfold cancelOngoingRequests
  dsimp only
  split <;> simp

theorem handleGenErr_noCtrl (st : PState) (e : ApiError) (pre : List Ev) (b : Bool)
    (hpre : Ev.ctrlCreated b ∉ pre) :
    Ev.ctrlCreated b ∉ (handleGenErr st e pre).2.2 := by
  have hc := cancelOngoingRequests_noCtrl st b
  unfold handleGenErr
  rcases hres : cancelOngoingRequests st with ⟨st1, cevs, b1, b2⟩
  rw [hres] at hc
  dsimp only
  repeat' split
  all_goals simp_all [List.mem_append]

theorem generateSolutionsHelper_noCtrl (st : PState) (env : Env) (b : Bool) :
    Ev.ctrlCreated b ∉ (generateSolutionsHelper st env).2.2 := by
  unfold generateSolutionsHelper
  repeat' split
  all_goals first
    | exact handleGenErr_noCtrl _ _ _ b (by simp)
    | simp

theorem extractFinish_noCtrl (sdk : Sdk) (t : Str) (env : Env) (st1 : PState)
    (b : Bool) :
    Ev.ctrlCreated b ∉ (extractFinish sdk t env st1).2.2 := by
  have h := generateSolutionsHelper_noCtrl st1 env b
  unfold extractFinish
  rcases hres : generateSolutionsHelper st1 env with ⟨r2, st2, evs2⟩
  rw [hres] at h
  rcases r2 with sol | m <;> simp_all [List.mem_append]

theorem processScreenshotsHelper_noCtrl (st : PState) (env : Env) (b : Bool) :
    Ev.ctrlCreated b ∉ (processScreenshotsHelper st env).2.2 := by
  unfold processScreenshotsHelper
  repeat' split
  all_goals first
    | exact extractFinish_noCtrl _ _ _ _ b
    | simp

theorem handleDebugErr_noCtrl (st : PState) (e : ApiError) (pre : List Ev) (b : Bool)
    (hpre : Ev.ctrlCreated b ∉ pre) :
    Ev.ctrlCreated b ∉ (handleDebugErr st e pre).2.2 := by
  have hc := cancelOngoingRequests_noCtrl st b
  unfold handleDebugErr
  rcases hres : cancelOngoingRequests st with ⟨st1, cevs, b1, b2⟩
  rw [hres] at hc
  dsimp only
  repeat' split
  all_goals simp_all [List.mem_append]

theorem processExtraScreenshotsHelper_noCtrl (st : PState) (env : Env) (b : Bool) :
    Ev.ctrlCreated b ∉ (processExtraScreenshotsHelper st env).2.2 := by
  unfold processExtraScreenshotsHelper
  repeat' split
  all_goals first
    | exact handleDebugErr_noCtrl _ _ _ b (by simp)
    | simp

theorem count_ctrl_map (env : Env) (q : List Str) (b : Bool) :
    (q.map (fun p => Ev.readFile p (env.fileData p))).count (Ev.ctrlCreated b) = 0 := by
  rw [List.count_eq_zero]
  intro hmem
  rcases List.mem_map.mp hmem with ⟨p, _, hp⟩
  exact Ev.noConfusion hp

theorem countP_success_map (env : Env) (q : List Str) :
    (q.map (fun p => Ev.readFile p (env.fileData p))).countP isSuccessEv = 0 := by
  rw [List.countP_eq_zero]
  intro a ha
  rcases List.mem_map.mp ha with ⟨p, _, hp⟩
  rw [← hp]
  simp [isSuccessEv]

theorem queueFinish_count (q : List Str) (env : Env)
    (res : HRes × PState × List Ev) (b : Bool)
    (hres : Ev.ctrlCreated b ∉ res.2.2) :
    (queueFinish q env res).2.1.count (Ev.ctrlCreated b) =
      (if b then 0 else 1) := by
  rcases res with ⟨r, st1, hevs⟩
  have hh : hevs.count (Ev.ctrlCreated b) = 0 := List.count_eq_zero.mpr hres
  have hmap := count_ctrl_map env q b
  cases b <;> rcases r with sol | m <;>
    simp [queueFinish, List.count_append, List.count_cons, hmap, hh]

theorem debugFinish_count (q : List Str) (env : Env)
    (res : HRes × PState × List Ev) (b : Bool)
    (hres : Ev.ctrlCreated b ∉ res.2.2) :
    (debugFinish q env res).2.1.count (Ev.ctrlCreated b) =
      (if b then 1 else 0) := by
  rcases res with ⟨r, st1, hevs⟩
  have hh : hevs.count (Ev.ctrlCreated b) = 0 := List.count_eq_zero.mpr hres
  have hmap := count_ctrl_map env q b
  cases b <;> rcases r with sol | m <;>
    simp [debugFinish, List.count_append, List.count_cons, hmap, hh]

theorem generateSolutionsHelper_abort (st : PState) (env : Env) (sdk : Sdk)
    (e : ApiError) (hk : env.apiKey ≠ []) (hp : st.problemInfo.isSome)
    (hs : sdkOf (effProvider env) = some sdk)
    (hf : env.solveOutcome = .fail e) (hab : isAbortErr e = true) :
    generateSolutionsHelper st env =
      (.err ("Solution generation canceled.".toList), st,
       [Ev.sdkCall sdk Purpose.solve] ++
         (if st.mainWindow = true then
           [Ev.solutionError ("Solution generation canceled.".toList)] else [])) := by
  unfold generateSolutionsHelper
  rw [neNil_isEmpty hk, if_neg Bool.false_ne_true]
  rw [problemInfo_isNone_false hp, if_neg Bool.false_ne_true]
  simp only [hs, hf]
  unfold handleGenErr
  rw [if_pos hab]

theorem processScreenshotsHelper_solveAbort (st : PState) (env : Env) (sdk : Sdk)
    (t : Str) (e : ApiError) (hk : env.apiKey ≠ [])
    (hs : sdkOf (effProvider env) = some sdk)
    (he : env.extractOutcome = .ok t) (ht : t ≠ [])
    (hw : st.mainWindow = true) (hf : env.solveOutcome = .fail e)
    (hab : isAbortErr e = true) :
    processScreenshotsHelper st env =
      (.err ("Solution generation canceled.".toList),
       { st with problemInfo := some t },
       [Ev.sdkCall sdk Purpose.extract, Ev.stSetProblemInfo (some t),
        Ev.problemExtracted t, Ev.sdkCall sdk Purpose.solve,
        Ev.solutionError ("Solution generation canceled.".toList)]) := by
  have hg := generateSolutionsHelper_abort { st with problemInfo := some t } env sdk e
    hk rfl hs hf hab
  unfold processScreenshotsHelper
  rw [neNil_isEmpty hk, if_neg Bool.false_ne_true]
  simp only [hs, he]
  rw [neNil_isEmpty ht, if_neg Bool.false_ne_true, if_pos hw]
  unfold extractFinish
  rw [hg]
  simp only [hw]
  rfl

theorem processExtraScreenshotsHelper_abort (st : PState) (env : Env) (sdk : Sdk)
    (e : ApiError) (hp : st.problemInfo.isSome) (hk : env.apiKey ≠ [])
    (hs : sdkOf (effProvider env) = some sdk)
    (hd : env.debugOutcome = .fail e) (hab : isAbortErr e = true) :
    processExtraScreenshotsHelper st env =
      (.err ("Debug processing was canceled by the user.".toList), st,
       [Ev.sdkCall sdk Purpose.debug]) := by
  unfold processExtraScreenshotsHelper
  rw [problemInfo_isNone_false hp, if_neg Bool.false_ne_true]
  rw [neNil_isEmpty hk, if_neg Bool.false_ne_true]
  simp only [hs, hd]
  unfold handleDebugErr
  rw [if_pos hab]

theorem queueBranch_ctrlCount (S : PState) (env : Env) (b : Bool)
    (hq : S.screenshotQueue ≠ []) :
    (queueBranch S env).2.1.count (Ev.ctrlCreated b) = (if b then 0 else 1) := by
  unfold queueBranch
  rw [if_neg (neNil_isEmpty hq ▸ Bool.false_ne_true)]
  exact queueFinish_count _ env _ b (processScreenshotsHelper_noCtrl _ _ b)

theorem debugBranch_ctrlCount (S : PState) (env : Env) (b : Bool)
    (hq : S.extraScreenshotQueue ≠ []) :
    (debugBranch S env).2.1.count (Ev.ctrlCreated b) = (if b then 1 else 0) := by
  unfold debugBranch
  rw [if_neg (neNil_isEmpty hq ▸ Bool.false_ne_true)]
  exact debugFinish_count _ env _ b (processExtraScreenshotsHelper_noCtrl _ _ b)

theorem queueBranch_abortRun (S : PState) (env : Env) (sdk : Sdk) (t : Str)
    (e : ApiError) (hq : S.screenshotQueue ≠ []) (hk : env.apiKey ≠ [])
    (hs : sdkOf (effProvider env) = some sdk)
    (he : env.extractOutcome = .ok t) (ht : t ≠ [])
    (hw : S.mainWindow = true) (hf : env.solveOutcome = .fail e)
    (hab : isAbortErr e = true) :
    (queueBranch S env).2.2 =
      RunOutcome.mainDone (.err ("Solution generation canceled.".toList)) ∧
    (queueBranch S env).2.1.countP isSuccessEv = 0 := by
  have hh := processScreenshotsHelper_solveAbort { S with ctrlMain := true } env
    sdk t e hk hs he ht hw hf hab
  unfold queueBranch
  rw [if_neg (neNil_isEmpty hq ▸ Bool.false_ne_true), hh]
  unfold queueFinish
  constructor
  · rfl
  · simp [List.countP_append, List.countP_cons, isSuccessEv, countP_success_map]

theorem debugBranch_abortRun (S : PState) (env : Env) (sdk : Sdk)
    (e : ApiError) (hq : S.extraScreenshotQueue ≠ [])
    (hp : S.problemInfo.isSome) (hk : env.apiKey ≠ [])
    (hs : sdkOf (effProvider env) = some sdk)
    (hd : env.debugOutcome = .fail e) (hab : isAbortErr e = true) :
    (debugBranch S env).2.2 =
      RunOutcome.extraDone (.err ("Debug processing was canceled by the user.".toList)) ∧
    (debugBranch S env).2.1.countP isSuccessEv = 0 := by
  have hh := processExtraScreenshotsHelper_abort { S with ctrlExtra := true } env
    sdk e hp hk hs hd hab
  unfold debugBranch
  rw [if_neg (neNil_isEmpty hq ▸ Bool.false_ne_true), hh]
  unfold debugFinish
  constructor
  · rfl
  · simp [List.countP_append, List.countP_cons, isSuccessEv, countP_success_map]

/-- C3: processing is a single cancellable call guarded by an abort flag.
`cancelProcessing` and `cancelOngoingRequests` abort and null whichever
controller slots are occupied, reporting exactly the previously stored
controllers; a queue-view run registers exactly one main abort controller
and no extra one, and a solutions-view run exactly one extra controller and
no main one; a run whose API call is aborted returns `success: false` with
the cancellation message and never sends SOLUTION_SUCCESS or DEBUG_SUCCESS;
and both controller slots are empty again after any run that started with
them empty. -/
theorem abort_controller_protocol (st : PState) (env : Env) (e : ApiError)
    (sdk : Sdk) (t : Str) :
    ((cancelProcessing st).1.ctrlMain = false ∧
     (cancelProcessing st).1.ctrlExtra = false ∧
     (cancelProcessing st).2.1 = st.ctrlMain ∧
     (cancelProcessing st).2.2 = st.ctrlExtra) ∧
    ((cancelOngoingRequests st).1.ctrlMain = false ∧
     (cancelOngoingRequests st).1.ctrlExtra = false ∧
     (cancelOngoingRequests st).2.2.1 = st.ctrlMain ∧
     (cancelOngoingRequests st).2.2.2 = st.ctrlExtra) ∧
    (st.isCurrentlyProcessing = false → st.mainWindow = true →
     st.view = View.queue → st.screenshotQueue ≠ [] →
     (processScreenshots st env).2.1.count (Ev.ctrlCreated false) = 1 ∧
     (processScreenshots st env).2.1.count (Ev.ctrlCreated true) = 0) ∧
    (st.isCurrentlyProcessing = false → st.mainWindow = true →
     st.view ≠ View.queue → st.extraScreenshotQueue ≠ [] →
     (processScreenshots st env).2.1.count (Ev.ctrlCreated true) = 1 ∧
     (processScreenshots st env).2.1.count (Ev.ctrlCreated false) = 0) ∧
    (st.isCurrentlyProcessing = false → st.mainWindow = true →
     st.view = View.queue → st.screenshotQueue ≠ [] →
     env.apiKey ≠ [] → sdkOf (effProvider env) = some sdk →
     env.extractOutcome = .ok t → t ≠ [] →
     env.solveOutcome = .fail e → isAbortErr e = true →
     (processScreenshots st env).2.2 =
       RunOutcome.mainDone (.err ("Solution generation canceled.".toList)) ∧
     (processScreenshots st env).2.1.countP isSuccessEv = 0) ∧
    (st.isCurrentlyProcessing = false → st.mainWindow = true →
     st.view ≠ View.queue → st.extraScreenshotQueue ≠ [] →
     st.problemInfo.isSome → env.apiKey ≠ [] →
     sdkOf (effProvider env) = some sdk →
     env.debugOutcome = .fail e → isAbortErr e = true →
     (processScreenshots st env).2.2 =
       RunOutcome.extraDone
         (.err ("Debug processing was canceled by the user.".toList)) ∧
     (processScreenshots st env).2.1.countP isSuccessEv = 0) ∧
    (st.ctrlMain = false → st.ctrlExtra = false →
     (processScreenshots st env).1.ctrlMain = false ∧
     (processScreenshots st env).1.ctrlExtra = false) := by
  refine ⟨⟨rfl, rfl, rfl, rfl⟩, ⟨rfl, rfl, rfl, rfl⟩, ?_, ?_, ?_, ?_, ?_⟩
  · intro hb hw hv hq
    unfold processScreenshots
    rw [if_neg (show ¬(st.isCurrentlyProcessing = true) by
      rw [hb]; exact Bool.false_ne_true)]
    rw [if_neg (show ¬((!st.mainWindow) = true) by rw [hw]; exact (by decide))]
    rw [if_pos hv, finishRun_snd]
    exact ⟨(queueBranch_ctrlCount { st with isCurrentlyProcessing := true } env
             false hq).trans rfl,
           (queueBranch_ctrlCount { st with isCurrentlyProcessing := true } env
             true hq).trans rfl⟩
  · intro hb hw hv hq
    unfold processScreenshots
    rw [if_neg (show ¬(st.isCurrentlyProcessing = true) by
      rw [hb]; exact Bool.false_ne_true)]
    rw [if_neg (show ¬((!st.mainWindow) = true) by rw [hw]; exact (by decide))]
    rw [if_neg hv, finishRun_snd]
    exact ⟨(debugBranch_ctrlCount { st with isCurrentlyProcessing := true } env
             true hq).trans rfl,
           (debugBranch_ctrlCount { st with isCurrentlyProcessing := true } env
             false hq).trans rfl⟩
  · intro hb hw hv hq hk hs he ht hf hab
    unfold processScreenshots
    rw [if_neg (show ¬(st.isCurrentlyProcessing = true) by
      rw [hb]; exact Bool.false_ne_true)]
    rw [if_neg (show ¬((!st.mainWindow) = true) by rw [hw]; exact (by decide))]
    rw [if_pos hv, finishRun_snd]
    exact queueBranch_abortRun { st with isCurrentlyProcessing := true } env sdk t e
      hq hk hs he ht hw hf hab
  · intro hb hw hv hq hp hk hs hd hab
    unfold processScreenshots
    rw [if_neg (show ¬(st.isCurrentlyProcessing = true) by
      rw [hb]; exact Bool.false_ne_true)]
    rw [if_neg (show ¬((!st.mainWindow) = true) by rw [hw]; exact (by decide))]
    rw [if_neg hv, finishRun_snd]
    exact debugBranch_abortRun { st with isCurrentlyProcessing := true } env sdk e
      hq hp hk hs hd hab
  · intro hm he
    exact processScreenshots_ctrl st env hm he

/-- Witness for C3: the protocol evaluated on the sample states, with an
aborted solution call and an aborted debug call. -/
theorem abort_controller_protocol_w :
    (cancelProcessing sampleDebugState).1.ctrlMain = false ∧
    (processScreenshots sampleQueueState envSolveAbort).2.1.count
      (Ev.ctrlCreated false) = 1 ∧
    (processScreenshots sampleDebugState envDebugAbort).2.1.count
      (Ev.ctrlCreated true) = 1 ∧
    (processScreenshots sampleQueueState envSolveAbort).2.2 =
      RunOutcome.mainDone (HRes.err ("Solution generation canceled.".toList)) ∧
    (processScreenshots sampleQueueState envSolveAbort).2.1.countP isSuccessEv = 0 ∧
    (processScreenshots sampleDebugState envDebugAbort).2.2 =
      RunOutcome.extraDone
        (HRes.err ("Debug processing was canceled by the user.".toList)) ∧
    (processScreenshots sampleDebugState envDebugAbort).2.1.countP isSuccessEv = 0 ∧
    (processScreenshots sampleQueueState envSolveAbort).1.ctrlMain = false := by
  have h1 := abort_controller_protocol sampleQueueState envSolveAbort
    (mkErr ("Request aborted".toList)) Sdk.openai ("problem text".toList)
  have h2 := abort_controller_protocol sampleDebugState envDebugAbort
    (mkErr ("Request aborted".toList)) Sdk.openai ("problem text".toList)
  refine ⟨h2.1.1, ?_, ?_, ?_, ?_, ?_, ?_, ?_⟩
  · exact (h1.2.2.1 (by decide) (by decide) (by decide) (by decide)).1
  · exact (h2.2.2.2.1 (by decide) (by decide) (by decide) (by decide)).1
  · exact (h1.2.2.2.2.1 (by decide) (by decide) (by decide) (by decide)
      (by decide) (by decide) (by decide) (by decide) (by decide) (by decide)).1
  · exact (h1.2.2.2.2.1 (by decide) (by decide) (by decide) (by decide)
      (by decide) (by decide) (by decide) (by decide) (by decide) (by decide)).2
  · exact (h2.2.2.2.2.2.1 (by decide) (by decide) (by decide) (by decide)
      (by decide) (by decide) (by decide) (by decide) (by decide)).1
  · exact (h2.2.2.2.2.2.1 (by decide) (by decide) (by decide) (by decide)
      (by decide) (by decide) (by decide) (by decide) (by decide)).2
  · exact (h1.2.2.2.2.2.2 (by decide) (by decide)).1

end Gurt
